import Mathlib

/-!
Verification of the AI-CFO financial-metrics engine.

This file is a shallow embedding of the Python sources
(`app/models.py`, `app/utils.py`, `backend/services.py`) into Lean 4.

Modelling conventions:
* a pandas DataFrame is a list of column names plus a list of rows,
  each row a list of cells;
* a cell (`RVal`) is a rational number, a string, a structured date,
  or null (pandas `NaN`/`NaT`);
* Python floats are modelled by rationals; the special values produced by
  the code (the `float(inf)` sentinel, and `nan` arising from division)
  are modelled by the extended type `EF`;
* `np.std` returns a square root which is irrational in general, so the
  model carries the *square* of the standard deviation (`volatility_sq`)
  and translates every comparison `std < c` of the source into the
  equivalent rational comparison (`0 < c` and `var < c^2`);
* Python exceptions (`TypeError` on comparing the literal string
  placeholder with a number, `KeyError` on a missing column, sklearn
  `ValueError` on infinite input) are modelled with `Except PyErr`;
* mutation of `self.df` is modelled by state passing: every method of
  `FinancialData` returns its result together with the updated frame;
* the sklearn `IsolationForest` is an external library: it is modelled
  as an oracle parameter, a pure function of the contamination rate, the
  effective random seed and the feature column.  `random_state=42` is
  modelled faithfully: the effective seed is the fixed seed when one is
  configured and the ambient RNG state otherwise.
-/

/-!
Kernel-reducible rational arithmetic.  The core operations `Rat.add`,
`Rat.sub`, `Rat.mul`, `Rat.div` are marked irreducible, which blocks
`decide`/`rfl` evaluation of the embedding on concrete inputs.  The
wrappers below are definitionally built from the reducible `mkRat` and
`Rat.divInt` and are proved equal to the standard operations, so every
definition of the embedding is executable by the kernel while every
theorem can still be read through the bridge lemmas as ordinary
rational arithmetic.
-/

/-- Reducible rational addition (equal to `+` by `qadd_eq`). -/
def qadd (a b : ℚ) : ℚ := mkRat (a.num * b.den + b.num * a.den) (a.den * b.den)

/-- Reducible rational subtraction (equal to `-` by `qsub_eq`). -/
def qsub (a b : ℚ) : ℚ := mkRat (a.num * b.den - b.num * a.den) (a.den * b.den)

/-- Reducible rational multiplication (equal to `*` by `qmul_eq`). -/
def qmul (a b : ℚ) : ℚ := mkRat (a.num * b.num) (a.den * b.den)

/-- Reducible rational division (equal to `/` by `qdiv_eq`). -/
def qdiv (a b : ℚ) : ℚ := Rat.divInt (a.num * b.den) (a.den * b.num)

/-- Reducible absolute value (equal to `|.|` by `qabs_eq`). -/
def qabs (a : ℚ) : ℚ := if a < 0 then -a else a

/-- Reducible list sum (equal to `List.sum` by `qsum_eq`). -/
def qsum (l : List ℚ) : ℚ := l.foldr qadd 0

theorem qadd_eq (a b : ℚ) : qadd a b = a + b := (Rat.add_def' a b).symm

theorem qsub_eq (a b : ℚ) : qsub a b = a - b := (Rat.sub_def' a b).symm

theorem qmul_eq (a b : ℚ) : qmul a b = a * b := by
  rw [Rat.mul_def, Rat.normalize_eq_mkRat]; rfl

theorem qdiv_eq (a b : ℚ) : qdiv a b = a / b := (Rat.div_def' a b).symm

theorem qabs_eq (a : ℚ) : qabs a = |a| := by
  by_cases h : a < 0
  · simp [qabs, h, abs_of_neg h]
  · simp [qabs, h, abs_of_nonneg (not_lt.mp h)]

theorem qsum_eq (l : List ℚ) : qsum l = l.sum := by
  induction l with
  | nil => rfl
  | cons a t ih =>
    show qadd a (qsum t) = (a :: t).sum
    rw [qadd_eq, ih, List.sum_cons]

/-- One cell of a DataFrame: null (NaN/NaT), a number, a string,
or a parsed calendar date (year, month 1..12, day). -/
inductive RVal where
  | null : RVal
  | num : ℚ → RVal
  | str : String → RVal
  | date : ℕ → ℕ → ℕ → RVal
deriving DecidableEq, Repr

/-- Extended float value: a rational, the positive-infinity sentinel, or nan.
Used where the Python code can produce `float(inf)` or `nan`. -/
inductive EF where
  | num : ℚ → EF
  | posInf : EF
  | nan : EF
deriving DecidableEq, Repr

/-- Comparison `e > c` between an extended float and a rational:
infinity dominates, nan compares false (IEEE semantics). -/
def EF.gtQ : EF → ℚ → Bool
  | .num q, c => decide (c < q)
  | .posInf, _ => true
  | .nan, _ => false

/-- Comparison `e < c`: infinity and nan compare false. -/
def EF.ltQ : EF → ℚ → Bool
  | .num q, c => decide (q < c)
  | .posInf, _ => false
  | .nan, _ => false

/-- Comparison `c > e` for a rational on the left. -/
def EF.qGt (c : ℚ) : EF → Bool
  | .num q => decide (q < c)
  | .posInf => false
  | .nan => false

/-- Subtraction `e - c` of a rational from an extended float. -/
def EF.subQ : EF → ℚ → EF
  | .num q, c => .num (qsub q c)
  | .posInf, _ => .posInf
  | .nan, _ => .nan

/-- Multiplication `e * c` by a positive rational (the only case the code
needs: `break_even_revenue = break_even_transactions * avg_revenue`
with a positive average). -/
def EF.mulPosQ : EF → ℚ → EF
  | .num q, c => .num (qmul q c)
  | .posInf, _ => .posInf
  | .nan, _ => .nan

/-- `len - e` as computed by `margin_of_safety`. -/
def EF.subFromQ (c : ℚ) : EF → EF
  | .num q => .num (qsub c q)
  | .posInf => .nan
  | .nan => .nan

/-- Division `e / c` by a positive rational. -/
def EF.divPosQ : EF → ℚ → EF
  | .num q, c => .num (qdiv q c)
  | .posInf, _ => .posInf
  | .nan, _ => .nan

/-- The source compares `break_even_transactions != float(inf)`. -/
def EF.isInf : EF → Bool
  | .posInf => true
  | _ => false

/-- Truth of `sqrt v < c` expressed on the squared quantity `v`
(for `v ≥ 0`): it holds iff `c` is positive and `v < c^2`. -/
def sqrtLtQ (v c : ℚ) : Bool := decide (0 < c) && decide (v < qmul c c)

/-- Truth of `sqrt v > c` expressed on the squared quantity `v`. -/
def sqrtGtQ (v c : ℚ) : Bool :=
  if c < 0 then true else decide (qmul c c < v)

/-- Do the characters `s` start with the characters `p`. -/
def charsHavePre : List Char → List Char → Bool
  | [], _ => true
  | _ :: _, [] => false
  | a :: ps, b :: ss => a = b && charsHavePre ps ss

/-- Substring occurrence test on character lists. -/
def charsContain : List Char → List Char → Bool
  | s, p =>
    match s with
    | [] => p.isEmpty
    | _ :: t => charsHavePre p s || charsContain t p

/-- Python `pat in s` substring containment. -/
def strContains (s pat : String) : Bool := charsContain s.data pat.data

/-- Lower-casing of a string (`str.lower()`). -/
def lowerStr (s : String) : String := ⟨s.data.map Char.toLower⟩

/-- Python `any(var in col for var in variations)`. -/
def containsAnyKw (s : String) (kws : List String) : Bool :=
  kws.any (fun k => strContains s k)

/-- A DataFrame: ordered column names and rows of cells.  Row `i`,
column `c` is the cell at the index of `c` in `cols`. -/
structure DataFrame where
  cols : List String
  rows : List (List RVal)
deriving DecidableEq, Repr

/-- Index of a column label (first occurrence, as in pandas). -/
def DataFrame.colIdx? (df : DataFrame) (c : String) : Option ℕ :=
  df.cols.findIdx? (fun n => n = c)

/-- Column membership (`c in df.columns`). -/
def DataFrame.hasCol (df : DataFrame) (c : String) : Bool :=
  df.cols.contains c

/-- Cell of a row at a column index; out-of-range reads are null. -/
def cellAt (r : List RVal) (i : ℕ) : RVal := r.getD i RVal.null

/-- The values of a column, top to bottom (empty if the column is absent). -/
def DataFrame.colVals (df : DataFrame) (c : String) : List RVal :=
  match df.colIdx? c with
  | some i => df.rows.map (fun r => cellAt r i)
  | none => []

/-- `len(df)`. -/
def DataFrame.numRows (df : DataFrame) : ℕ := df.rows.length

/-- Write a whole column: overwrite it in place if the label exists,
otherwise append it as a new column (pandas column enlargement). -/
def DataFrame.setCol (df : DataFrame) (c : String) (vals : List RVal) : DataFrame :=
  match df.colIdx? c with
  | some i => ⟨df.cols, (df.rows.zip vals).map (fun p => p.1.set i p.2)⟩
  | none => ⟨df.cols ++ [c], (df.rows.zip vals).map (fun p => p.1 ++ [p.2])⟩

/-- Rename the column at position `i` (pandas `rename`, label only). -/
def DataFrame.renameAt (df : DataFrame) (i : ℕ) (c : String) : DataFrame :=
  ⟨df.cols.set i c, df.rows⟩

/-- Numeric view of a cell: `some q` for numbers, `none` otherwise. -/
def toQ : RVal → Option ℚ
  | .num q => some q
  | _ => none

/-- Is a cell null. -/
def isNullRV : RVal → Bool
  | .null => true
  | _ => false

/-- Column sum, skipping non-numeric cells (pandas `Series.sum()`
with default `skipna=True`; post-cleaning numeric columns contain only
numbers and nulls). -/
def DataFrame.sumCol (df : DataFrame) (c : String) : ℚ :=
  qsum ((df.colVals c).filterMap toQ)

/-- Mean of a list of rationals (`0` on the empty list is never used:
callers guard emptiness as the source does). -/
def meanQ (l : List ℚ) : ℚ := qdiv (qsum l) (l.length : ℚ)

/-- Population variance (`np.std` squared, `ddof=0`). -/
def popVarQ (l : List ℚ) : ℚ :=
  meanQ (l.map (fun x => qmul (qsub x (meanQ l)) (qsub x (meanQ l))))

example : strContains "client payment" "payment" = true := by decide
example : strContains "office rent" "expense" = false := by decide
example : lowerStr "Client Payment" = "client payment" := by decide

/-! ## SchemaNormalizer: `FinancialData.__init__` and its helpers -/

/-- Strip currency symbols: the regex `[$,£€¥]` of `_clean_data` removes
dollar, comma, pound, euro and yen characters. -/
def stripCurrency (s : String) : String :=
  ⟨s.data.filter (fun c => !(['$', ',', '£', '€', '¥'].contains c))⟩

/-- Digits of a character list read as a natural number. -/
def natOfDigits (cs : List Char) : ℕ :=
  cs.foldl (fun a c => a * 10 + (c.toNat - 48)) 0

/-- Parse a decimal literal (optional sign, digits, optional fraction),
the shape accepted by `pd.to_numeric`; anything else is `none` (NaN). -/
def parseDecimal (s : String) : Option ℚ :=
  let p : List Char → Option ℚ := fun cs =>
    let intPart := cs.takeWhile (fun c => c ≠ '.')
    let rest := cs.dropWhile (fun c => c ≠ '.')
    match rest with
    | [] =>
      if intPart.all Char.isDigit && !intPart.isEmpty then
        some (natOfDigits intPart) else none
    | _ :: frac =>
      if intPart.all Char.isDigit && frac.all Char.isDigit &&
          !(intPart.isEmpty && frac.isEmpty) && frac.all (fun c => c ≠ '.') then
        some (qadd (natOfDigits intPart : ℚ)
          (qdiv (natOfDigits frac : ℚ) ((10 ^ frac.length : ℕ) : ℚ)))
      else none
  match s.data with
  | '-' :: t => (p t).map (fun q => -q)
  | '+' :: t => p t
  | cs => p cs

/-- Numeric coercion of one cell (`astype(str)` then `to_numeric` with
`errors=coerce`): numbers survive, numeric strings are parsed after
currency stripping, everything else becomes null. -/
def coerceNum : RVal → RVal
  | .num q => .num q
  | .str s =>
    match parseDecimal (stripCurrency s) with
    | some q => .num q
    | none => .null
  | _ => .null

/-- Date coercion of one cell (`pd.to_datetime` with `errors=coerce`).
Parsable raw dates are modelled as already-structured `RVal.date` cells;
every other cell coerces to null (NaT). -/
def parseDateRV : RVal → RVal
  | .date y m d => .date y m d
  | _ => .null

/-- Column-name normalisation applied in `__init__`:
`strip`, `lower`, spaces to underscores. -/
def normalizeName (s : String) : String :=
  ⟨(((s.data.dropWhile Char.isWhitespace).reverse.dropWhile
      Char.isWhitespace).reverse.map Char.toLower).map
    (fun c => if c = ' ' then '_' else c)⟩

/-- The fixed `column_mapping` of `_standardize_columns`, in insertion
order. -/
def columnMapping : List (String × List String) :=
  [("revenue", ["sales", "income", "turnover", "gross_sales"]),
   ("expenses", ["costs", "expenditure", "outgoings", "spending"]),
   ("date", ["transaction_date", "period", "month", "time"]),
   ("amount", ["value", "sum", "total"]),
   ("category", ["type", "description", "account", "classification"])]

/-- One pass of `_standardize_columns`: rename the first column whose
name contains one of the variations, then stop (the inner `break`). -/
def standardizeOne (df : DataFrame) (standard : String)
    (variations : List String) : DataFrame :=
  match df.cols.findIdx? (fun c => containsAnyKw c variations) with
  | some i => df.renameAt i standard
  | none => df

/-- `FinancialData._standardize_columns`. -/
def standardize_columns (df : DataFrame) : DataFrame :=
  columnMapping.foldl (fun d p => standardizeOne d p.1 p.2) df

/-- The income keyword list of `_ensure_income_expenses` and
`get_cash_flow`. -/
def incomeKeywords : List String :=
  ["income", "revenue", "sales", "receivable", "deposit"]

/-- The expense keyword list of `_ensure_income_expenses` and
`get_cash_flow`. -/
def expenseKeywords : List String :=
  ["expense", "cost", "payment", "bill", "payable", "purchase"]

/-- One entry of the mask
`df[category].str.lower().str.contains(joined, na=False)`:
string cells are lower-cased and tested for any keyword as a substring,
non-string cells give `False` (the `na=False` default). -/
def categoryMatch (kws : List String) : RVal → Bool
  | .str s => containsAnyKw (lowerStr s) kws
  | _ => false

/-- The boolean mask over the `category` column. -/
def DataFrame.catMask (df : DataFrame) (kws : List String) : List Bool :=
  (df.colVals "category").map (categoryMatch kws)

/-- The column written by `df.loc[mask, c] = df.loc[mask, amount]` when
`c` does not exist yet: the amount value where the mask holds, null
elsewhere (pandas creates the new column with NaN outside the mask). -/
def maskedNewCol (mask : List Bool) (src : List RVal) : List RVal :=
  (mask.zip src).map (fun p => if p.1 then p.2 else RVal.null)

/-- `FinancialData._ensure_income_expenses`. -/
def ensure_income_expenses (df : DataFrame) : DataFrame :=
  let df1 :=
    if df.hasCol "revenue" && !df.hasCol "income" then
      df.setCol "income" (df.colVals "revenue")
    else df
  if df1.hasCol "amount" && df1.hasCol "category" then
    let df2 :=
      if !df1.hasCol "income" then
        df1.setCol "income"
          (maskedNewCol (df1.catMask incomeKeywords) (df1.colVals "amount"))
      else df1
    if !df2.hasCol "expenses" then
      df2.setCol "expenses"
        (maskedNewCol (df2.catMask expenseKeywords) (df2.colVals "amount"))
    else df2
  else df1

/-- The numeric columns cleaned by `_clean_data`, in source order. -/
def numericalCols : List String := ["amount", "revenue", "expenses", "income"]

/-- `df.dropna(subset=subset)` with the default `how=any`: keep a row
only when every subset column is non-null in it. -/
def dropAnyNull (df : DataFrame) (subset : List String) : DataFrame :=
  let idxs := subset.filterMap df.colIdx?
  ⟨df.cols, df.rows.filter (fun r => idxs.all (fun i => !isNullRV (cellAt r i)))⟩

/-- The first two stages of `FinancialData._clean_data`: date coercion
with the drop of unparsable-date rows, then numeric coercion of the
resolved numeric columns. -/
def numericCoerceStage (df : DataFrame) : DataFrame :=
  let df1 :=
    if df.hasCol "date" then
      dropAnyNull (df.setCol "date" ((df.colVals "date").map parseDateRV)) ["date"]
    else df
  numericalCols.foldl
    (fun d c => if d.hasCol c then d.setCol c ((d.colVals c).map coerceNum) else d) df1

/-- `FinancialData._clean_data`: the coercion stages followed by
`dropna(subset=[resolved numeric columns])`. -/
def clean_data (df : DataFrame) : DataFrame :=
  dropAnyNull (numericCoerceStage df)
    (numericalCols.filter (numericCoerceStage df).hasCol)

/-- `FinancialData.__init__` after the file has been decoded into a raw
row table: column-name normalisation, schema standardisation, derived
income/expense creation, cleaning. -/
def financialDataInit (raw : DataFrame) : DataFrame :=
  clean_data (ensure_income_expenses (standardize_columns
    ⟨raw.cols.map normalizeName, raw.rows⟩))

/-! ## MetricsEngine: monthly aggregation and regression helpers -/

/-- Key of the calendar month of a date cell (`year*12 + month-1`),
none for non-date cells. -/
def monthKeyOf? : RVal → Option ℕ
  | .date y m _ => some (y * 12 + (m - 1))
  | _ => none

/-- The month keys of the rows of the date column (the occupied
monthly buckets). -/
def monthKeys (df : DataFrame) : List ℕ :=
  (df.colVals "date").filterMap monthKeyOf?

/-- Sum of a column restricted to the rows whose date falls in month
`k`, skipping non-numeric cells. -/
def DataFrame.sumColInMonth (df : DataFrame) (c : String) (k : ℕ) : ℚ :=
  qsum ((((df.colVals "date").zip (df.colVals c)).filterMap
    (fun p => if monthKeyOf? p.1 = some k then some p.2 else none)).filterMap toQ)

/-- One monthly bucket of `_create_monthly_aggregations`: per-column
sums are present exactly when the column was aggregated. -/
structure MonthBucket where
  key : ℕ
  amountSum : Option ℚ
  incomeSum : Option ℚ
  expensesSum : Option ℚ
  net_cash_flow : ℚ
deriving DecidableEq, Repr

/-- `FinancialData._create_monthly_aggregations`: `resample(M)` produces
one bucket for every calendar month from the earliest to the latest
date (empty months sum to 0); `net_cash_flow` is income minus expenses
when both columns exist, else the amount sum, else 0. -/
def create_monthly_aggregations (df : DataFrame) : List MonthBucket :=
  let aggCols := (["amount", "income", "expenses"].filter (fun c => df.hasCol c))
  if aggCols.isEmpty then []
  else
    match monthKeys df with
    | [] => []
    | k :: ks =>
      let lo := ks.foldl min k
      let hi := ks.foldl max k
      (List.range (hi + 1 - lo)).map (fun j =>
        let key := lo + j
        let s : String → Option ℚ := fun c =>
          if aggCols.contains c then some (df.sumColInMonth c key) else none
        let net : ℚ :=
          match s "income", s "expenses" with
          | some i, some e => qsub i e
          | _, _ => match s "amount" with
            | some a => a
            | none => 0
        ⟨key, s "amount", s "income", s "expenses", net⟩)

/-- Ordinary-least-squares slope of `y` against `x = 0, 1, ...`
(`LinearRegression.fit`). -/
def olsSlope (y : List ℚ) : ℚ :=
  let n : ℚ := y.length
  let xs : List ℚ := (List.range y.length).map (fun i => (i : ℚ))
  let d := qsub (qmul n (qsum (xs.map (fun x => qmul x x)))) (qmul (qsum xs) (qsum xs))
  if d = 0 then 0
  else qdiv (qsub (qmul n (qsum ((xs.zip y).map (fun p => qmul p.1 p.2))))
    (qmul (qsum xs) (qsum y))) d

/-- OLS intercept (the mean of `x = 0..n-1` is `(n-1)/2`). -/
def olsIntercept (y : List ℚ) : ℚ :=
  if y.length = 0 then 0
  else qsub (meanQ y) (qmul (olsSlope y) (qdiv (qsub (y.length : ℚ) 1) 2))

/-- Coefficient of determination of the OLS fit (`model.score`);
sklearn returns 1 when both the residual and total sums of squares
vanish and 0 when only the total does. -/
def olsR2 (y : List ℚ) : ℚ :=
  let b := olsSlope y
  let a := olsIntercept y
  let preds := (List.range y.length).map (fun i => qadd a (qmul b (i : ℚ)))
  let ssRes := qsum ((y.zip preds).map (fun p => qmul (qsub p.1 p.2) (qsub p.1 p.2)))
  let ssTot := qsum (y.map (fun v => qmul (qsub v (meanQ y)) (qsub v (meanQ y))))
  if ssTot = 0 then (if ssRes = 0 then 1 else 0) else qsub 1 (qdiv ssRes ssTot)

/-- Square of `_calculate_trend_strength` (the absolute Pearson
correlation with time); none models the nan produced by `np.corrcoef`
on a constant series. -/
def trendStrengthSq (y : List ℚ) : Option ℚ :=
  if y.length < 3 then some 0
  else
    let xs : List ℚ := (List.range y.length).map (fun i => (i : ℚ))
    let cov := qsum ((xs.zip y).map (fun p => qmul (qsub p.1 (meanQ xs)) (qsub p.2 (meanQ y))))
    let vx := qsum (xs.map (fun x => qmul (qsub x (meanQ xs)) (qsub x (meanQ xs))))
    let vy := qsum (y.map (fun v => qmul (qsub v (meanQ y)) (qsub v (meanQ y))))
    if qmul vx vy = 0 then none else some (qdiv (qmul cov cov) (qmul vx vy))

/-- Sort key of a date cell inside `sort_values(date)`. -/
def dateKeyRV : RVal → ℕ
  | .date y m d => (y * 12 + (m - 1)) * 32 + d
  | _ => 0

/-- `self.df = self.df.sort_values(date)` in `get_cash_flow_trend`. -/
def sortValuesDate (df : DataFrame) : DataFrame :=
  match df.colIdx? "date" with
  | some i =>
    ⟨df.cols, List.insertionSort
      (fun a b => dateKeyRV (cellAt a i) ≤ dateKeyRV (cellAt b i)) df.rows⟩
  | none => df

/-! ## MetricsEngine: cash flow -/

/-- The populated result dictionary of `get_cash_flow`. -/
structure CashFlowData where
  net_cash_flow : ℚ
  total_income : ℚ
  total_expenses : ℚ
  cash_flow_ratio : EF
  expense_ratio : ℚ
  monthly_average : ℚ
  seasonal_analysis : List (ℚ × Option ℚ)
deriving DecidableEq, Repr

/-- Result of `get_cash_flow`: the error dictionary or the populated one. -/
inductive CashFlowOut where
  | err : String → CashFlowOut
  | ok : CashFlowData → CashFlowOut
deriving DecidableEq, Repr

/-- Sum of `amount` over the rows whose `category` matches one of the
keywords (`df[mask][amount].sum()`). -/
def maskedAmountSum (df : DataFrame) (kws : List String) : ℚ :=
  qsum (((df.catMask kws).zip (df.colVals "amount")).filterMap
    (fun p => if p.1 then toQ p.2 else none))

/-- `FinancialData._get_monthly_cash_flow_average`. -/
def get_monthly_cash_flow_average (df : DataFrame) : ℚ :=
  if !df.hasCol "date" then 0
  else
    let m := create_monthly_aggregations df
    if 0 < m.length then meanQ (m.map (fun b => b.net_cash_flow)) else 0

/-- Sorted distinct keys of a groupby. -/
def groupKeysQ (l : List ℚ) : List ℚ :=
  List.insertionSort (fun a b => a ≤ b) l.dedup

/-- `FinancialData._get_seasonal_patterns`.  Returns the seasonal
mapping together with the updated frame: when a date column exists and
there are at least 12 rows the method writes the derived `month` column
into `self.df` (the mutation recorded by this model); a group whose
amounts are all missing has mean nan (`none`). -/
def get_seasonal_patterns (df : DataFrame) : List (ℚ × Option ℚ) × DataFrame :=
  if !df.hasCol "date" || df.numRows < 12 then ([], df)
  else
    let monthNums := (df.colVals "date").map (fun v =>
      match v with
      | .date _ m _ => RVal.num m
      | _ => RVal.null)
    let df2 := df.setCol "month" monthNums
    let seasonal :=
      if df2.hasCol "amount" then
        let pairs := (df2.colVals "month").zip (df2.colVals "amount")
        (groupKeysQ (pairs.filterMap (fun p => toQ p.1))).map (fun k =>
          let g := (pairs.filterMap
            (fun p => if toQ p.1 = some k then toQ p.2 else none))
          (k, if g.isEmpty then none else some (meanQ g)))
      else []
    (seasonal, df2)

/-- Shared construction of the populated cash-flow dictionary from the
two totals (the tail of `get_cash_flow` after either branch). -/
def mkCashFlowData (df : DataFrame) (ti te : ℚ) : CashFlowOut × DataFrame :=
  (.ok { net_cash_flow := qsub ti te
         total_income := ti
         total_expenses := te
         cash_flow_ratio := if 0 < te then .num (qdiv ti te) else .posInf
         expense_ratio := if 0 < ti then qdiv te ti else 0
         monthly_average := get_monthly_cash_flow_average df
         seasonal_analysis := (get_seasonal_patterns df).1 },
   (get_seasonal_patterns df).2)

/-- `FinancialData.get_cash_flow`. -/
def get_cash_flow (df : DataFrame) : CashFlowOut × DataFrame :=
  if df.hasCol "income" && df.hasCol "expenses" then
    mkCashFlowData df (df.sumCol "income") (df.sumCol "expenses")
  else if df.hasCol "amount" && df.hasCol "category" then
    mkCashFlowData df (maskedAmountSum df incomeKeywords)
      (maskedAmountSum df expenseKeywords)
  else (.err "Unable to identify income and expense columns", df)

/-! ## MetricsEngine: trend forecast -/

/-- The populated result of `get_cash_flow_trend` (`volatility_sq` and
`trend_strength_sq` carry the squares of the reported floats, see the
header). -/
structure TrendData where
  trend_slope : ℚ
  r_squared : ℚ
  current_trajectory : String
  monthly_data : List MonthBucket
  forecast : List ℚ
  volatility_sq : ℚ
  trend_strength_sq : Option ℚ
deriving DecidableEq, Repr

/-- Result of `get_cash_flow_trend`. -/
inductive TrendOut where
  | err : String → TrendOut
  | ok : TrendData → TrendOut
deriving DecidableEq, Repr

/-- The populated trend dictionary built from the monthly buckets: the
regression of net cash flow against the month index, the forecast of
the next 6 periods, the volatility and the trend strength. -/
def mkTrendData (monthly : List MonthBucket) : TrendData :=
  let y := monthly.map (fun b => b.net_cash_flow)
  { trend_slope := olsSlope y
    r_squared := olsR2 y
    current_trajectory := if 0 < olsSlope y then "improving" else "declining"
    monthly_data := monthly
    forecast := (List.range 6).map
      (fun j => qadd (olsIntercept y) (qmul (olsSlope y) ((monthly.length + j : ℕ) : ℚ)))
    volatility_sq := popVarQ y
    trend_strength_sq := trendStrengthSq y }

/-- `FinancialData.get_cash_flow_trend`.  The frame is sorted by date
before bucketing (the second component returns the mutated frame). -/
def get_cash_flow_trend (df : DataFrame) : TrendOut × DataFrame :=
  if !df.hasCol "date" then (.err "Date column required for trend analysis", df)
  else
    let monthly := create_monthly_aggregations (sortValuesDate df)
    if monthly.length < 2 then
      (.err "Insufficient data for trend analysis", sortValuesDate df)
    else (.ok (mkTrendData monthly), sortValuesDate df)

/-! ## MetricsEngine: profitability -/

/-- Python exceptions that the pipeline can raise. -/
inductive PyErr where
  | typeError : PyErr
  | keyError : String → PyErr
  | valueError : PyErr
deriving DecidableEq, Repr

/-- `FinancialData._get_total_revenue`. -/
def get_total_revenue (df : DataFrame) : ℚ :=
  if df.hasCol "revenue" then df.sumCol "revenue"
  else if df.hasCol "income" then df.sumCol "income"
  else if df.hasCol "amount" && df.hasCol "category" then
    maskedAmountSum df ["income", "revenue", "sales"]
  else 0

/-- `FinancialData._get_total_costs`. -/
def get_total_costs (df : DataFrame) : ℚ :=
  if df.hasCol "costs" then df.sumCol "costs"
  else if df.hasCol "expenses" then df.sumCol "expenses"
  else if df.hasCol "amount" && df.hasCol "category" then
    maskedAmountSum df ["expense", "cost", "payment", "bill"]
  else 0

/-- Linear-interpolation quantile of `pd.Series.quantile(0.1)` over the
sorted non-null values; `none` is the NaN of an empty series. -/
def quantile10 (l : List ℚ) : Option ℚ :=
  match List.insertionSort (fun a b => a ≤ b) l with
  | [] => none
  | v :: vs =>
    let s := v :: vs
    let pos : ℚ := qdiv (qsub (s.length : ℚ) 1) 10
    let i : ℕ := pos.floor.toNat
    let lo := s.getD i 0
    (some (qadd lo (qmul (qsub pos (i : ℚ)) (qsub (s.getD (i + 1) lo) lo))))

/-- `FinancialData._estimate_fixed_costs`: the bottom decile of the
expenses column as a proxy, nan when the column is empty, 0 when it is
absent. -/
def estimate_fixed_costs (df : DataFrame) : EF :=
  if df.hasCol "expenses" then
    match quantile10 ((df.colVals "expenses").filterMap toQ) with
    | some q => .num q
    | none => .nan
  else .num 0

/-- `FinancialData._estimate_variable_cost_ratio`. -/
def estimate_variable_cost_ratio (df : DataFrame) : ℚ :=
  if 0 < get_total_revenue df then qdiv (get_total_costs df) (get_total_revenue df) else 0

/-- The populated break-even dictionary. -/
structure BreakEvenData where
  break_even_transactions : EF
  break_even_revenue : EF
  current_transactions : ℕ
  margin_of_safety : EF
deriving DecidableEq, Repr

/-- Result of `_calculate_break_even`. -/
inductive BreakEvenOut where
  | err : String → BreakEvenOut
  | ok : BreakEvenData → BreakEvenOut
deriving DecidableEq, Repr

/-- `FinancialData._calculate_break_even`. -/
def calculate_break_even (df : DataFrame) : BreakEvenOut :=
  let fixed := estimate_fixed_costs df
  let vcr := estimate_variable_cost_ratio df
  let avgRev : ℚ :=
    if 0 < df.numRows then qdiv (get_total_revenue df) (df.numRows : ℚ) else 0
  if 0 < avgRev ∧ vcr < 1 then
    let cm := qmul avgRev (qsub 1 vcr)
    let bet : EF := if 0 < cm then fixed.divPosQ cm else .posInf
    .ok { break_even_transactions := bet
          break_even_revenue := bet.mulPosQ avgRev
          current_transactions := df.numRows
          margin_of_safety :=
            if bet.isInf then .num 0 else EF.subFromQ (df.numRows : ℚ) bet }
  else .err "Insufficient data for break-even analysis"

/-- `FinancialData._get_profit_per_transaction`. -/
def get_profit_per_transaction (df : DataFrame) : ℚ :=
  if df.numRows = 0 then 0
  else qdiv (qsub (get_total_revenue df) (get_total_costs df)) (df.numRows : ℚ)

/-- `FinancialData._get_profitability_trend`.  Accessing the income or
expenses column of the monthly frame raises `KeyError` when the
aggregation did not produce it; an infinite monthly margin (division of
a nonzero profit by zero income, which `fillna(0)` does not remove)
makes `LinearRegression.fit` raise `ValueError`. -/
def get_profitability_trend (df : DataFrame) : Except PyErr ℚ :=
  if !df.hasCol "date" then .ok 0
  else
    let monthly := create_monthly_aggregations df
    if monthly.length < 2 then .ok 0
    else if !df.hasCol "income" then .error (.keyError "income")
    else if !df.hasCol "expenses" then .error (.keyError "expenses")
    else
      match monthly.mapM (fun b =>
        let i := b.incomeSum.getD 0
        let e := b.expensesSum.getD 0
        if i = 0 then (if (qsub i e) = 0 then some (0 : ℚ) else none)
        else some (qdiv (qsub i e) i)) with
      | none => .error .valueError
      | some margins => .ok (olsSlope margins)

/-- The populated result dictionary of `get_profitability`. -/
structure ProfData where
  gross_profit : ℚ
  gross_profit_margin : ℚ
  revenue : ℚ
  costs : ℚ
  profit_per_transaction : ℚ
  break_even_analysis : BreakEvenOut
  profitability_trend : ℚ
deriving DecidableEq, Repr

/-- Returned value of `get_profitability`: the no-revenue error
dictionary or the populated metrics. -/
inductive ProfOut where
  | err : String → ProfOut
  | metrics : ProfData → ProfOut
deriving DecidableEq, Repr

/-- `FinancialData.get_profitability`.  The method never mutates the
frame; it can raise (through `_get_profitability_trend`), which the
`Except` layer records. -/
def get_profitability (df : DataFrame) : Except PyErr ProfOut × DataFrame :=
  let r := get_total_revenue df
  let c := get_total_costs df
  if r ≤ 0 then (.ok (.err "No revenue data found"), df)
  else
    match get_profitability_trend df with
    | .error e => (.error e, df)
    | .ok pt =>
      (.ok (.metrics
        { gross_profit := qsub r c
          gross_profit_margin := qdiv (qsub r c) r
          revenue := r
          costs := c
          profit_per_transaction := get_profit_per_transaction df
          break_even_analysis := calculate_break_even df
          profitability_trend := pt }), df)

/-! ## MetricsEngine: anomaly detection -/

/-- An isolation-forest oracle: a pure function of the contamination
rate, the effective random seed and the amount feature column,
returning the fit-predict labels (`-1` flags an outlier).  sklearn is
an external library, so its algorithm stays abstract; what the model
keeps is that the labels depend on the data only through these
arguments. -/
def IsoOracle : Type := ℚ → ℕ → List ℚ → List ℤ

/-- The seed actually used by sklearn: the configured `random_state`
when one is given, otherwise the ambient global RNG state. -/
def effectiveSeed (randomState : Option ℕ) (ambient : ℕ) : ℕ :=
  randomState.getD ambient

/-- The populated result of `detect_anomalies`. -/
structure AnomalyData where
  anomaly_count : ℕ
  anomaly_percentage : ℚ
  anomalies : List (List RVal)
  total_anomaly_value : ℚ
deriving DecidableEq, Repr

/-- Result of `detect_anomalies`. -/
inductive AnomalyOut where
  | err : String → AnomalyOut
  | ok : AnomalyData → AnomalyOut
deriving DecidableEq, Repr

/-- `FinancialData.detect_anomalies`: at least 10 rows and an amount
column are required; the detector is invoked with the fixed
contamination 0.1 and the fixed seed 42 (`IsolationForest(
contamination=0.1, random_state=42)`). -/
def detect_anomalies (oracle : IsoOracle) (ambient : ℕ) (df : DataFrame) :
    AnomalyOut × DataFrame :=
  if df.numRows < 10 then (.err "Insufficient data for anomaly detection", df)
  else if !df.hasCol "amount" then
    (.err "No suitable columns for anomaly detection", df)
  else
    let X := (df.colVals "amount").map (fun v => (toQ v).getD 0)
    let preds := oracle (mkRat 1 10) (effectiveSeed (some 42) ambient) X
    let idxs := (List.range df.numRows).filter (fun i => preds.getD i 1 = -1)
    let arows := idxs.filterMap (fun i => df.rows.get? i)
    let aidx := (df.colIdx? "amount").getD 0
    (.ok { anomaly_count := idxs.length
           anomaly_percentage := qmul (qdiv (idxs.length : ℚ) (df.numRows : ℚ)) 100
           anomalies := if arows.length < 20 then arows else arows.take 20
           total_anomaly_value :=
             qsum ((arows.map (fun r => cellAt r aidx)).filterMap toQ) }, df)

/-! ## MetricsEngine: health score -/

/-- The contributing conditions of `get_financial_health_score`, from
the already-computed cash-flow, profitability and trend results. -/
structure HealthConds where
  netPos : Bool
  ratioHigh : Bool
  m30 : Bool
  m15 : Bool
  m05 : Bool
  slopePos : Bool
  r2High : Bool
  vol10 : Bool
  vol20 : Bool
deriving DecidableEq, Repr

/-- The score accumulation of `get_financial_health_score`, written as
arithmetic over the conditions: the source initialises `score = 0` and
adds 20/10 (cash flow, ratio nested), 30/20/10 (margin ladder), 15/10
(slope, R squared nested) and 15/10 (volatility ladder). -/
def healthScoreNum (c : HealthConds) : ℕ :=
  (if c.netPos then 20 + (if c.ratioHigh then 10 else 0) else 0) +
  (if c.m30 then 30 else if c.m15 then 20 else if c.m05 then 10 else 0) +
  (if c.slopePos then 15 + (if c.r2High then 10 else 0) else 0) +
  (if c.vol10 then 15 else if c.vol20 then 10 else 0)

/-- Extraction of the conditions from the three metric results exactly
as the source tests them: a metric in its error state contributes
nothing (`score in cash_flow_data` style guards), and the volatility
thresholds compare `np.std` against fractions of the mean of the
absolute totals (expressed on squares, see the header). -/
def mkHealthConds (cf : CashFlowOut) (p : ProfOut) (t : TrendOut) : HealthConds :=
  let ti := match cf with
    | .ok d => d.total_income
    | .err _ => 0
  let te := match cf with
    | .ok d => d.total_expenses
    | .err _ => 0
  let meanAbs := qdiv (qadd (qabs ti) (qabs te)) 2
  { netPos := match cf with
      | .ok d => decide (0 < d.net_cash_flow)
      | .err _ => false
    ratioHigh := match cf with
      | .ok d => d.cash_flow_ratio.gtQ (mkRat 6 5)
      | .err _ => false
    m30 := match p with
      | .metrics d => decide (mkRat 3 10 < d.gross_profit_margin)
      | .err _ => false
    m15 := match p with
      | .metrics d => decide (mkRat 15 100 < d.gross_profit_margin)
      | .err _ => false
    m05 := match p with
      | .metrics d => decide (mkRat 5 100 < d.gross_profit_margin)
      | .err _ => false
    slopePos := match t with
      | .ok d => decide (0 < d.trend_slope)
      | .err _ => false
    r2High := match t with
      | .ok d => decide (mkRat 7 10 < d.r_squared)
      | .err _ => false
    vol10 := match t with
      | .ok d => sqrtLtQ d.volatility_sq (qmul meanAbs (mkRat 1 10))
      | .err _ => false
    vol20 := match t with
      | .ok d => sqrtLtQ d.volatility_sq (qmul meanAbs (mkRat 1 5))
      | .err _ => false }

/-- `FinancialData._score_to_grade`. -/
def score_to_grade (s : ℕ) : String :=
  if 90 ≤ s then "A+"
  else if 80 ≤ s then "A"
  else if 70 ≤ s then "B"
  else if 60 ≤ s then "C"
  else if 50 ≤ s then "D"
  else "F"

/-- `FinancialData._get_health_assessment`. -/
def get_health_assessment (s : ℕ) : String :=
  if 80 ≤ s then "Excellent financial health with strong performance indicators"
  else if 60 ≤ s then "Good financial health with some areas for improvement"
  else if 40 ≤ s then "Moderate financial health requiring attention to key areas"
  else "Poor financial health requiring immediate action"

/-- The result dictionary of `get_financial_health_score`. -/
structure HealthOut where
  score : ℕ
  grade : String
  assessment : String
deriving DecidableEq, Repr

/-- The clamped result record of the health score. -/
def mkHealthOut (s : ℕ) (df2 : DataFrame) : Except PyErr HealthOut × DataFrame :=
  (.ok { score := min s 100
         grade := score_to_grade (min s 100)
         assessment := get_health_assessment (min s 100) }, df2)

/-- `FinancialData.get_financial_health_score`: recomputes cash flow,
profitability and trend (threading their mutations of the frame), sums
the condition weights and clamps at 100.  The unprotected call to
`get_profitability` propagates a raise. -/
def get_financial_health_score (df : DataFrame) :
    Except PyErr HealthOut × DataFrame :=
  match get_profitability (get_cash_flow df).2 with
  | (.error e, df2) => (.error e, df2)
  | (.ok p, df2) =>
    mkHealthOut (healthScoreNum
      (mkHealthConds (get_cash_flow df).1 p (get_cash_flow_trend df2).1))
      (get_cash_flow_trend df2).2

/-! ## BenchmarkComparator (`BenchmarkAnalysis`) -/

/-- One row of `INDUSTRY_BENCHMARKS`. -/
structure BenchmarkEntry where
  profit_margin : ℚ
  cash_flow_ratio : ℚ
  expense_ratio : ℚ
deriving DecidableEq, Repr

/-- The static benchmark table. -/
def industryBenchmarks : List (String × BenchmarkEntry) :=
  [("retail", ⟨mkRat 5 100, mkRat 115 100, mkRat 85 100⟩),
   ("services", ⟨mkRat 15 100, mkRat 125 100, mkRat 75 100⟩),
   ("manufacturing", ⟨mkRat 8 100, mkRat 120 100, mkRat 80 100⟩),
   ("technology", ⟨mkRat 25 100, mkRat 140 100, mkRat 65 100⟩),
   ("consulting", ⟨mkRat 20 100, mkRat 130 100, mkRat 70 100⟩),
   ("default", ⟨mkRat 10 100, mkRat 120 100, mkRat 80 100⟩)]

/-- Lookup with the `default` fallback for unknown industry codes. -/
def benchLookup (industry : String) : BenchmarkEntry :=
  (industryBenchmarks.lookup industry).getD ⟨mkRat 10 100, mkRat 120 100, mkRat 80 100⟩

/-- `BenchmarkAnalysis._calculate_percentile`: the fixed step table from
the signed difference. -/
def calculate_percentile (d : EF) (metric : String) : ℕ :=
  if metric = "profit_margin" then
    if d.gtQ (mkRat 5 100) then 90
    else if d.gtQ (mkRat 2 100) then 75
    else if d.gtQ (mkRat (-2) 100) then 50
    else 25
  else if metric = "cash_flow_ratio" then
    if d.gtQ (mkRat 2 10) then 90
    else if d.gtQ (mkRat 1 10) then 75
    else if d.gtQ (mkRat (-1) 10) then 50
    else 25
  else if metric = "expense_ratio" then
    if d.gtQ (mkRat 1 10) then 90
    else if d.gtQ (mkRat 5 100) then 75
    else if d.gtQ (mkRat (-5) 100) then 50
    else 25
  else 50

/-- One metric entry of the benchmark comparison. -/
structure BenchMetricCmp where
  your_performance : EF
  industry_benchmark : ℚ
  difference : EF
  performance : String
  percentile : ℕ
deriving DecidableEq, Repr

/-- `compare_to_industry` result: each entry is present only when its
source metric produced a populated dictionary. -/
structure BenchOut where
  profit_margin : Option BenchMetricCmp
  cash_flow_ratio : Option BenchMetricCmp
  expense_ratio : Option BenchMetricCmp
deriving DecidableEq, Repr

/-- `BenchmarkAnalysis.compare_to_industry`: recomputes cash flow and
profitability on the financial-data object (threading the frame state;
the profitability call can raise). -/
def compare_to_industry (df : DataFrame) (industry : String) :
    Except PyErr BenchOut × DataFrame :=
  let b := benchLookup industry
  let cfp := get_cash_flow df
  match get_profitability cfp.2 with
  | (.error e, df2) => (.error e, df2)
  | (.ok p, df2) =>
    let pmCmp := match p with
      | .metrics d =>
        let diff : EF := .num (qsub d.gross_profit_margin b.profit_margin)
        some ⟨.num d.gross_profit_margin, b.profit_margin, diff,
          if diff.gtQ 0 then "above" else "below",
          calculate_percentile diff "profit_margin"⟩
      | .err _ => none
    let cfCmp := match cfp.1 with
      | .ok d =>
        let diff := d.cash_flow_ratio.subQ b.cash_flow_ratio
        some ⟨d.cash_flow_ratio, b.cash_flow_ratio, diff,
          if diff.gtQ 0 then "above" else "below",
          calculate_percentile diff "cash_flow_ratio"⟩
      | .err _ => none
    let erCmp := match cfp.1 with
      | .ok d =>
        let diff : EF := .num (qsub b.expense_ratio d.expense_ratio)
        some ⟨.num d.expense_ratio, b.expense_ratio, diff,
          if diff.gtQ 0 then "above" else "below",
          calculate_percentile diff "expense_ratio"⟩
      | .err _ => none
    (.ok ⟨pmCmp, cfCmp, erCmp⟩, df2)

/-! ## InsightRuleEngine (`app/utils.py`)

The service layer replaces a failed profitability dictionary by the
literal `N/A` placeholder before handing it to the rule engine, so the
profitability argument of the rules is either real metrics or the
placeholder.  Comparing the placeholder string against a numeric
threshold raises `TypeError` in Python 3; `PVal` records exactly that. -/

/-- The value found under `gross_profit_margin` (and the other
profitability keys) by the rule engine: a number or the string
placeholder. -/
inductive PVal where
  | num : ℚ → PVal
  | naStr : PVal
deriving DecidableEq, Repr

/-- Python `v < c`: raises `TypeError` when `v` is the placeholder. -/
def PVal.ltQ : PVal → ℚ → Except PyErr Bool
  | .num q, c => .ok (decide (q < c))
  | .naStr, _ => .error .typeError

/-- Python `v > c`: raises `TypeError` when `v` is the placeholder. -/
def PVal.gtQ : PVal → ℚ → Except PyErr Bool
  | .num q, c => .ok (decide (c < q))
  | .naStr, _ => .error .typeError

/-- Python `c < v` with the constant on the left. -/
def PVal.qLt (c : ℚ) : PVal → Except PyErr Bool
  | .num q => .ok (decide (c < q))
  | .naStr => .error .typeError

/-- The profitability argument the service passes to the rule engine:
real metrics, or the `N/A` placeholder substituted after a failure. -/
inductive ProfArg where
  | metrics : ProfData → ProfArg
  | na : ProfArg
deriving DecidableEq, Repr

/-- `profitability.get(gross_profit_margin, 0)` as seen by the rules. -/
def ProfArg.marginP : ProfArg → PVal
  | .metrics d => .num d.gross_profit_margin
  | .na => .naStr

/-- `profitability.get(revenue, 0)`. -/
def ProfArg.revenueP : ProfArg → PVal
  | .metrics d => .num d.revenue
  | .na => .naStr

/-- `cash_flow.get(k, default)` numeric getters on a possibly-failed
cash-flow dictionary. -/
def cfNet (c : CashFlowOut) : ℚ :=
  match c with
  | .ok d => d.net_cash_flow
  | .err _ => 0

/-- `cash_flow.get(total_income, 0)`. -/
def cfIncome (c : CashFlowOut) : ℚ :=
  match c with
  | .ok d => d.total_income
  | .err _ => 0

/-- `cash_flow.get(total_expenses, 0)`. -/
def cfExpenses (c : CashFlowOut) : ℚ :=
  match c with
  | .ok d => d.total_expenses
  | .err _ => 0

/-- `cash_flow.get(cash_flow_ratio, dflt)`. -/
def cfRatioD (c : CashFlowOut) (dflt : ℚ) : EF :=
  match c with
  | .ok d => d.cash_flow_ratio
  | .err _ => .num dflt

/-- `cash_flow.get(expense_ratio, 0)`. -/
def cfExpRatio (c : CashFlowOut) : ℚ :=
  match c with
  | .ok d => d.expense_ratio
  | .err _ => 0

/-- `cash_flow_trend.get(trend_slope, 0)`. -/
def trSlope (t : TrendOut) : ℚ :=
  match t with
  | .ok d => d.trend_slope
  | .err _ => 0

/-- Decimal rendering of a rational for message interpolation. -/
def fmtQ (q : ℚ) : String :=
  toString q.num ++ (if q.den = 1 then "" else "/" ++ toString q.den)

/-- Rendering of an extended float. -/
def fmtEF : EF → String
  | .num q => fmtQ q
  | .posInf => "inf"
  | .nan => "nan"

/-- `utils._analyze_cash_flow` (message text abbreviated; the branch
structure follows the source). -/
def analyze_cash_flow (c : CashFlowOut) : List String :=
  match c with
  | .err _ => ["Unable to analyze cash flow - insufficient data"]
  | .ok d =>
    (if 0 < d.net_cash_flow then
      ["Positive cash flow of $" ++ fmtQ d.net_cash_flow ++
        " indicates healthy financial operations"] ++
      (if d.cash_flow_ratio.gtQ (mkRat 3 2) then
        ["Excellent cash flow ratio of " ++ fmtEF d.cash_flow_ratio ++
          " shows strong financial stability"]
      else [])
    else
      ["Negative cash flow of $" ++ fmtQ d.net_cash_flow ++
        " requires immediate attention",
       "Consider implementing stricter credit terms and faster collection processes"]) ++
    (if 0 < d.total_income ∧ 0 < d.total_expenses then
      let er := qdiv d.total_expenses d.total_income
      if mkRat 9 10 < er then
        ["High expense ratio of " ++ fmtQ er ++
          " - costs are consuming most of your income"]
      else if er < mkRat 7 10 then
        ["Healthy expense ratio of " ++ fmtQ er ++ " shows good cost management"]
      else []
    else []) ++
    (if d.monthly_average ≠ 0 then
      if 0 < d.monthly_average then
        ["Average monthly cash flow of $" ++ fmtQ d.monthly_average ++
          " shows consistent performance"]
      else
        ["Average monthly cash flow of $" ++ fmtQ d.monthly_average ++
          " indicates structural issues"]
    else [])

/-- `utils._analyze_profitability`: the margin of the `N/A` placeholder
reaches the very first numeric comparison (`margin > 0.4`) and raises
`TypeError`. -/
def analyze_profitability (p : ProfArg) : Except PyErr (List String) := do
  let m := p.marginP
  let marginMsg ←
    (do
      if ← m.gtQ (mkRat 4 10) then
        pure ["Exceptional profit margin - you are operating very efficiently"]
      else if ← m.gtQ (mkRat 2 10) then
        pure ["Strong profit margin - good pricing and cost control"]
      else if ← m.gtQ (mkRat 1 10) then
        pure ["Moderate profit margin - room for improvement"]
      else if ← m.gtQ 0 then
        pure ["Low profit margin - urgent optimization needed"]
      else
        pure ["Operating at a loss - immediate action required"])
  let revMsg ←
    (do
      if ← p.revenueP.gtQ 0 then
        pure ["Total revenue with gross profit reported"]
      else pure [])
  let beMsg :=
    match p with
    | .metrics d =>
      match d.break_even_analysis with
      | .ok be =>
        if EF.qGt (be.current_transactions : ℚ) be.break_even_transactions then
          ["Operating above break-even point"]
        else
          ["More transactions needed to reach break-even"]
      | .err _ => []
    | .na => []
  pure (marginMsg ++ revMsg ++ beMsg)

/-- `utils._analyze_trends` (volatility comparisons are expressed on
the squared volatility, see the header). -/
def analyze_trends (t : TrendOut) : List String :=
  match t with
  | .err _ => ["Unable to analyze trends - insufficient historical data"]
  | .ok d =>
    (if 0 < d.trend_slope then
      ["Cash flow is trending upward"] ++
      (if mkRat 7 10 < d.r_squared then
        ["Strong trend reliability suggests sustainable growth"]
      else [])
    else
      ["Cash flow is declining",
       "Investigate underlying causes and implement corrective measures"]) ++
    (if sqrtGtQ d.volatility_sq 0 then
      if sqrtLtQ d.volatility_sq 1000 then
        ["Low volatility indicates stable and predictable cash flows"]
      else if sqrtGtQ d.volatility_sq 5000 then
        ["High volatility suggests unpredictable cash flows - consider stabilization strategies"]
      else []
    else []) ++
    (if !d.forecast.isEmpty then
      if 0 < meanQ d.forecast then
        ["6-month forecast shows positive average monthly cash flow"]
      else
        ["Forecast indicates potential cash flow challenges ahead"]
    else [])

/-- `utils._analyze_health_score`. -/
def analyze_health_score (h : HealthOut) : List String :=
  (if 90 ≤ h.score then
    ["Excellent financial health score", "Exceptional financial management"]
  else if 70 ≤ h.score then
    ["Good financial health score", "Strong financial foundation"]
  else if 50 ≤ h.score then
    ["Moderate financial health score", "Several opportunities to strengthen"]
  else
    ["Poor financial health score", "Immediate action needed"]) ++
  ["Assessment: " ++ h.assessment]

/-- One risk entry of `_assess_risks`. -/
structure Risk where
  rtype : String
  level : String
  description : String
  mitigation : String
deriving DecidableEq, Repr

/-- `utils._assess_risks`: the profitability threshold check can raise
on the placeholder. -/
def assess_risks (c : CashFlowOut) (p : ProfArg) (t : TrendOut) :
    Except PyErr (List Risk) := do
  let liquidity :=
    if cfNet c < 0 then
      [⟨"liquidity", if cfNet c < -5000 then "high" else "medium",
        "Negative cash flow indicates immediate liquidity concerns",
        "Accelerate receivables, delay payables, secure credit line"⟩]
    else []
  let profRisk ←
    (do
      if ← p.marginP.ltQ (mkRat 5 100) then
        pure [(⟨"profitability", "high",
          "Low profit margins threaten long-term sustainability",
          "Review pricing strategy, optimize operations, reduce costs"⟩ : Risk)]
      else pure [])
  let trendRisk :=
    if trSlope t < 0 then
      [(⟨"trend", "medium",
        "Declining cash flow trend indicates potential future problems",
        "Identify root causes, develop growth strategy, monitor closely"⟩ : Risk)]
    else []
  let volRisk :=
    match t with
    | .ok d =>
      if sqrtGtQ d.volatility_sq 5000 then
        [(⟨"volatility", "medium",
          "High cash flow volatility makes planning difficult",
          "Diversify revenue streams, implement better forecasting"⟩ : Risk)]
      else []
    | .err _ => []
  pure (liquidity ++ profRisk ++ trendRisk ++ volRisk)

/-- One opportunity entry of `_identify_opportunities`. -/
structure Opportunity where
  otype : String
  description : String
  potential : String
  timeline : String
deriving DecidableEq, Repr

/-- `utils._identify_opportunities`.  The chained comparison
`0.1 < margin < 0.3` evaluates its left half first, so it raises on the
placeholder; the `and` of the expansion rule short-circuits on the
trend slope before touching the margin. -/
def identify_opportunities (c : CashFlowOut) (p : ProfArg) (t : TrendOut) :
    Except PyErr (List Opportunity) := do
  let invest :=
    if 10000 < cfNet c then
      [(⟨"investment", "Strong cash position enables growth investments",
        "Invest in marketing, equipment, or expansion", "1-3 months"⟩ : Opportunity)]
    else []
  let marginImp ←
    (do
      if ← p.marginP.qLt (mkRat 1 10) then
        if ← p.marginP.ltQ (mkRat 3 10) then
          pure [(⟨"margin_improvement", "Moderate margins suggest room for optimization",
            "Implement value-based pricing, reduce costs", "2-6 months"⟩ : Opportunity)]
        else pure []
      else pure [])
  let expansion ←
    (do
      if 0 < trSlope t then
        if ← p.marginP.gtQ (mkRat 2 10) then
          pure [(⟨"expansion", "Strong trends and margins indicate readiness for growth",
            "Scale operations, enter new markets, hire staff", "3-12 months"⟩ : Opportunity)]
        else pure []
      else pure [])
  let efficiency :=
    if mkRat 8 10 < cfExpRatio c then
      [(⟨"efficiency", "High expense ratio suggests automation potential",
        "Automate processes, renegotiate contracts, outsource", "1-6 months"⟩ : Opportunity)]
    else []
  pure (invest ++ marginImp ++ expansion ++ efficiency)

/-- The result of `generate_insights`. -/
structure InsightsOut where
  cash_flow_insights : List String
  profitability_insights : List String
  trend_insights : List String
  health_insights : List String
  risk_assessment : List Risk
  growth_opportunities : List Opportunity
deriving DecidableEq, Repr

/-- `utils.generate_insights`: the six sections are computed in the
order of the dictionary literal, so a `TypeError` in the profitability
section aborts the whole call. -/
def generate_insights (c : CashFlowOut) (p : ProfArg) (t : TrendOut)
    (h : HealthOut) : Except PyErr InsightsOut := do
  let cfi := analyze_cash_flow c
  let pfi ← analyze_profitability p
  let tri := analyze_trends t
  let hli := analyze_health_score h
  let rsk ← assess_risks c p t
  let opp ← identify_opportunities c p t
  pure ⟨cfi, pfi, tri, hli, rsk, opp⟩

/-- The result of `generate_recommendations` (the seven fixed buckets;
`risk_mitigation` is declared but never populated by the source). -/
structure RecsOut where
  immediate_actions : List String
  short_term_strategies : List String
  long_term_strategies : List String
  strategic_recommendations : List String
  cost_optimization : List String
  revenue_enhancement : List String
  risk_mitigation : List String
deriving DecidableEq, Repr

/-- `utils.generate_recommendations`: threshold rules in source order;
the profitability thresholds raise on the placeholder. -/
def generate_recommendations (c : CashFlowOut) (p : ProfArg) (t : TrendOut)
    (bench : BenchOut) (business_size : String) : Except PyErr RecsOut := do
  let immediate1 :=
    if cfNet c < 0 then
      ["Immediately review and reduce non-essential expenses",
       "Accelerate accounts receivable collection",
       "Consider emergency financing options if cash position is critical"]
    else []
  let immediate2 ←
    (do
      if ← p.marginP.ltQ (mkRat 5 100) then
        pure ["Conduct urgent pricing analysis and consider price increases",
          "Review and renegotiate supplier contracts",
          "Identify and eliminate unprofitable products or services"]
      else pure [])
  let shortTerm :=
    if (cfRatioD c 1).ltQ (mkRat 12 10) then
      ["Implement stricter payment terms for new customers",
       "Optimize inventory levels to free up working capital",
       "Explore factoring or invoice financing options"]
    else []
  let costOpt :=
    if mkRat 8 10 < cfExpRatio c then
      ["Conduct comprehensive expense audit",
       "Implement zero-based budgeting approach",
       "Automate manual processes to reduce labor costs",
       "Negotiate better rates with vendors and suppliers"]
    else []
  let revEnh ←
    (do
      if ← p.marginP.ltQ (mkRat 3 10) then
        pure ["Develop premium service offerings with higher margins",
          "Implement value-based pricing strategies",
          "Focus on customer retention to reduce acquisition costs",
          "Explore cross-selling and upselling opportunities"]
      else pure [])
  let benchNonempty :=
    bench.profit_margin.isSome || bench.cash_flow_ratio.isSome ||
      bench.expense_ratio.isSome
  let strategic1 :=
    if benchNonempty then
      (match bench.profit_margin with
        | some d =>
          if d.performance = "below" then
            ["Your profit margin is " ++ fmtEF d.difference ++
              " below industry average. Focus on operational efficiency and pricing optimization."]
          else []
        | none => []) ++
      (match bench.cash_flow_ratio with
        | some d =>
          if d.performance = "below" then
            ["Your cash flow ratio is below industry standards. Improve working capital management and payment collection."]
          else []
        | none => [])
    else []
  let longTerm :=
    if trSlope t < 0 then
      ["Develop new revenue streams to diversify income",
       "Invest in customer acquisition and retention programs",
       "Consider strategic partnerships or market expansion"]
    else []
  let strategic2 :=
    if business_size = "small" then
      ["Consider cloud-based financial management tools for better insights",
       "Implement automated invoicing and payment systems",
       "Focus on building strong customer relationships for organic growth"]
    else []
  pure ⟨immediate1 ++ immediate2, shortTerm, longTerm, strategic1 ++ strategic2,
        costOpt, revEnh, []⟩

/-- One alert record. -/
structure Alert where
  atype : String
  message : String
  impact : String
  urgency : String
deriving DecidableEq, Repr

/-- `utils._calculate_overall_risk`. -/
def calculate_overall_risk (critical warning : ℕ) : String :=
  if 2 < critical then "very_high"
  else if 0 < critical then "high"
  else if 3 < warning then "medium"
  else if 0 < warning then "low"
  else "minimal"

/-- The severity section of the alert result. -/
structure SeverityLevels where
  critical : ℕ
  warning : ℕ
  opportunity : ℕ
  overall_risk : String
deriving DecidableEq, Repr

/-- The result of `create_financial_alerts`. -/
structure AlertsOut where
  critical_alerts : List Alert
  warning_alerts : List Alert
  opportunity_alerts : List Alert
  severity_levels : SeverityLevels
deriving DecidableEq, Repr

/-- `anomalies.get(anomaly_count, 0)`. -/
def anomCount (a : AnomalyOut) : ℕ :=
  match a with
  | .ok d => d.anomaly_count
  | .err _ => 0

/-- `utils.create_financial_alerts`: rule list in source order; the
profitability margin checks raise on the placeholder. -/
def create_financial_alerts (c : CashFlowOut) (p : ProfArg) (a : AnomalyOut)
    (h : HealthOut) : Except PyErr AlertsOut := do
  let crit1 :=
    if cfNet c < -1000 then
      [(⟨"cash_flow", "Critical: Negative cash flow of $" ++ fmtQ |cfNet c|,
        "high", "immediate"⟩ : Alert)]
    else []
  let crit2 :=
    if h.score < 40 then
      [(⟨"financial_health", "Critical: Financial health score is " ++
        toString h.score ++ "/100", "high", "immediate"⟩ : Alert)]
    else []
  let warn1 :=
    if (cfRatioD c 1).ltQ (mkRat 11 10) then
      [(⟨"liquidity", "Warning: Low cash flow ratio indicates potential liquidity issues",
        "medium", "within_week"⟩ : Alert)]
    else []
  let warn2 ←
    (do
      if ← p.marginP.ltQ (mkRat 1 10) then
        pure [(⟨"profitability", "Warning: Low profit margin", "medium",
          "within_month"⟩ : Alert)]
      else pure [])
  let warn3 :=
    if 0 < anomCount a then
      [(⟨"anomalies", "Detected " ++ toString (anomCount a) ++
        " unusual transactions", "medium", "within_week"⟩ : Alert)]
    else []
  let opp1 :=
    if 10000 < cfNet c then
      [(⟨"investment", "Opportunity: Strong cash position available for investment",
        "positive", "consider"⟩ : Alert)]
    else []
  let opp2 ←
    (do
      if ← p.marginP.gtQ (mkRat 3 10) then
        pure [(⟨"expansion", "Opportunity: Strong profit margin suggests potential for growth",
          "positive", "consider"⟩ : Alert)]
      else pure [])
  let crit := crit1 ++ crit2
  let warn := warn1 ++ warn2 ++ warn3
  let opp := opp1 ++ opp2
  pure ⟨crit, warn, opp,
    ⟨crit.length, warn.length, opp.length,
      calculate_overall_risk crit.length warn.length⟩⟩

/-! ## ReportAssembler (`backend/services.py`) -/

/-- Gregorian leap-year test. -/
def isLeap (y : ℕ) : Bool := (y % 4 = 0 && y % 100 ≠ 0) || y % 400 = 0

/-- Days before the first of month `m` (1-indexed) in year `y`. -/
def daysBeforeMonth (y m : ℕ) : ℕ :=
  [0, 31, 59, 90, 120, 151, 181, 212, 243, 273, 304, 334].getD (m - 1) 0 +
    (if 2 < m && isLeap y then 1 else 0)

/-- Gregorian ordinal day number of a date (for day differences). -/
def dayNumber (y m d : ℕ) : ℕ :=
  365 * (y - 1) + (y - 1) / 4 - (y - 1) / 100 + (y - 1) / 400 +
    daysBeforeMonth y m + d

/-- The `date_range` section of the data-quality summary. -/
structure DateRange where
  start_date : Option (ℕ × ℕ × ℕ)
  end_date : Option (ℕ × ℕ × ℕ)
  period_months : ℚ
deriving DecidableEq, Repr

/-- `services._get_date_range`: the min and max of the date column and
their distance in 30-day months. -/
def get_date_range (df : DataFrame) : DateRange :=
  if df.hasCol "date" then
    let ds := (df.colVals "date").filterMap (fun v =>
      match v with
      | .date y m d => some (y, m, d)
      | _ => none)
    match ds with
    | [] => ⟨none, none, 0⟩
    | d0 :: rest =>
      let dn : ℕ × ℕ × ℕ → ℕ := fun t => dayNumber t.1 t.2.1 t.2.2
      let mn := rest.foldl (fun a b => if dn b < dn a then b else a) d0
      let mx := rest.foldl (fun a b => if dn a < dn b then b else a) d0
      ⟨some mn, some mx, qdiv (qsub (dn mx : ℚ) (dn mn : ℚ)) 30⟩
  else ⟨none, none, 0⟩

/-- `services._calculate_data_completeness`: non-null cells over total
cells, as a percentage. -/
def calculate_data_completeness (df : DataFrame) : ℚ :=
  let total := df.numRows * df.cols.length
  if total = 0 then 0
  else
    let nonNull := ((List.range df.cols.length).map
      (fun i => df.rows.countP (fun r => !isNullRV (cellAt r i)))).sum
    qmul (qdiv (nonNull : ℚ) (total : ℚ)) 100

/-- The data-quality section of the report. -/
structure DataQuality where
  rows_processed : ℕ
  columns_found : List String
  date_range : DateRange
  completeness_score : ℚ
deriving DecidableEq, Repr

/-- The populated forecast section. -/
structure ForecastData where
  next_6_months : List ℚ
  confidence_level : String
  optimistic : List ℚ
  pessimistic : List ℚ
  realistic : List ℚ
deriving DecidableEq, Repr

/-- Result of `_generate_forecast`. -/
inductive ForecastOut where
  | err : String → ForecastOut
  | ok : ForecastData → ForecastOut
deriving DecidableEq, Repr

/-- `services._generate_forecast`: scenario analysis at plus and minus
20 percent of the realistic fitted line. -/
def generate_forecast (t : TrendOut) : ForecastOut :=
  match t with
  | .err _ => .err "Insufficient data for forecasting"
  | .ok d =>
    .ok { next_6_months := d.forecast
          confidence_level := if mkRat 1 2 < d.r_squared then "medium" else "low"
          optimistic := d.forecast.map (fun x => qmul x (mkRat 12 10))
          pessimistic := d.forecast.map (fun x => qmul x (mkRat 8 10))
          realistic := d.forecast }

/-- The action carried by an action item: a whole alert record or a
recommendation string. -/
inductive ActionVal where
  | alert : Alert → ActionVal
  | text : String → ActionVal
deriving DecidableEq, Repr

/-- One prioritized action item. -/
structure ActionItem where
  priority : String
  category : String
  action : ActionVal
  timeline : String
deriving DecidableEq, Repr

/-- `services._generate_action_items`: alerts first, then immediate
actions, then strategic recommendations. -/
def generate_action_items (recs : RecsOut) (alerts : AlertsOut) : List ActionItem :=
  (alerts.critical_alerts.map (fun a =>
    (⟨"high", "alert", .alert a, "immediate"⟩ : ActionItem))) ++
  (recs.immediate_actions.map (fun r =>
    (⟨"medium", "improvement", .text r, "1-2 weeks"⟩ : ActionItem))) ++
  (recs.strategic_recommendations.map (fun r =>
    (⟨"low", "strategic", .text r, "1-3 months"⟩ : ActionItem)))

/-- The executive summary section. -/
structure ExecSummary where
  overall_health : String
  key_findings : List String
  critical_issues : List String
  opportunities : List String
  next_steps : List String
deriving DecidableEq, Repr

/-- `services._generate_executive_summary`: the failed-cash-flow case
indexes `cash_flow[net_cash_flow]` directly and would raise `KeyError`;
the margin is tested with `isinstance`, so the placeholder lands in the
critical-issues branch without raising. -/
def generate_executive_summary (h : HealthOut) (c : CashFlowOut) (p : ProfArg)
    (recs : RecsOut) : Except PyErr ExecSummary := do
  let (findings1, critical1) ←
    (match c with
    | .ok d =>
      if 0 < d.net_cash_flow then
        pure (["Positive cash flow of $" ++ fmtQ d.net_cash_flow], ([] : List String))
      else
        pure (([] : List String), ["Negative cash flow of $" ++ fmtQ d.net_cash_flow])
    | .err _ =>
      (.error (.keyError "net_cash_flow") : Except PyErr (List String × List String)))
  let (findings2, opps, critical2) :=
    match p.marginP with
    | .num g =>
      if mkRat 15 100 < g then (["Strong profit margin of " ++ fmtQ g], ([] : List String), ([] : List String))
      else if 0 < g then ([], ["Opportunity to improve profit margins"], [])
      else ([], [], ["Operating at a loss or unable to calculate profitability"])
    | .naStr => ([], [], ["Operating at a loss or unable to calculate profitability"])
  pure { overall_health := h.grade
         key_findings := findings1 ++ findings2
         critical_issues := critical1 ++ critical2
         opportunities := opps
         next_steps := recs.immediate_actions.take 3 }

/-- The financial-metrics section of the report. -/
structure FinMetrics where
  cash_flow : CashFlowOut
  profitability : ProfArg
  trend_analysis : TrendOut
  health_score : HealthOut
  anomalies : AnomalyOut
deriving DecidableEq, Repr

/-- The full analysis report (transport-only fields such as the
timestamp and the file name are outside the model). -/
structure Report where
  data_quality : DataQuality
  financial_metrics : FinMetrics
  benchmark_analysis : BenchOut
  ai_insights : InsightsOut
  recommendations : RecsOut
  alerts : AlertsOut
  forecast : ForecastOut
  action_items : List ActionItem
  executive_summary : ExecSummary
deriving DecidableEq, Repr

/-- Result of `process_financial_data`: the report, or the catch-all
error response produced by the `except` block. -/
inductive ProcessOut where
  | report : Report → ProcessOut
  | errorResponse : PyErr → ProcessOut
deriving DecidableEq, Repr

/-- `FinancialAnalysisService.process_financial_data`: the metric calls
in source order (threading the frame mutations), the `N/A` placeholder
substitution for a failed profitability, benchmarking, rule-engine
calls, and report assembly — all inside the `try` block whose `except`
emits the error response. -/
def process_financial_data (oracle : IsoOracle) (ambient : ℕ) (raw : DataFrame)
    (user_industry : String := "default") (business_size : String := "small") :
    ProcessOut :=
  let body : Except PyErr Report := do
    let fd := financialDataInit raw
    let cashP := get_cash_flow fd
    let cash := cashP.1
    let prof ← (get_profitability cashP.2).1
    let trendP := get_cash_flow_trend cashP.2
    let trend := trendP.1
    let healthP := get_financial_health_score trendP.2
    let health ← healthP.1
    let anomP := detect_anomalies oracle ambient healthP.2
    let anoms := anomP.1
    let profArg : ProfArg :=
      match prof with
      | .err _ => .na
      | .metrics d => .metrics d
    let benchP := compare_to_industry anomP.2 user_industry
    let bench ← benchP.1
    let insights ← generate_insights cash profArg trend health
    let recs ← generate_recommendations cash profArg trend bench business_size
    let alerts ← create_financial_alerts cash profArg anoms health
    let finalDf := benchP.2
    pure { data_quality :=
             { rows_processed := finalDf.numRows
               columns_found := finalDf.cols
               date_range := get_date_range finalDf
               completeness_score := calculate_data_completeness finalDf }
           financial_metrics :=
             { cash_flow := cash, profitability := profArg,
               trend_analysis := trend, health_score := health,
               anomalies := anoms }
           benchmark_analysis := bench
           ai_insights := insights
           recommendations := recs
           alerts := alerts
           forecast := generate_forecast trend
           action_items := generate_action_items recs alerts
           executive_summary := ← generate_executive_summary health cash profArg recs }
  match body with
  | .ok r => .report r
  | .error e => .errorResponse e

/-- Rectangular well-formedness of a frame: every row has one cell per
column (true of every frame pandas builds from a decoded table). -/
def DataFrame.WF (df : DataFrame) : Prop :=
  ∀ r ∈ df.rows, r.length = df.cols.length

/-! ## Claim theorems -/

/-- C4: for every dataset in which both income and expenses columns are
resolved, `get_cash_flow` returns a populated result whose
`net_cash_flow` equals the sum of the income column minus the sum of
the expenses column exactly. -/
theorem c4_net_cash_flow_exact (df : DataFrame)
    (h1 : df.hasCol "income" = true) (h2 : df.hasCol "expenses" = true) :
    ∃ d, (get_cash_flow df).1 = CashFlowOut.ok d ∧
      d.net_cash_flow = df.sumCol "income" - df.sumCol "expenses" ∧
      d.total_income = df.sumCol "income" ∧
      d.total_expenses = df.sumCol "expenses" := by
  refine ⟨⟨df.sumCol "income" - df.sumCol "expenses", df.sumCol "income",
    df.sumCol "expenses",
    if 0 < df.sumCol "expenses" then
      .num (df.sumCol "income" / df.sumCol "expenses") else .posInf,
    if 0 < df.sumCol "income" then df.sumCol "expenses" / df.sumCol "income" else 0,
    get_monthly_cash_flow_average df, (get_seasonal_patterns df).1⟩, ?_, rfl, rfl, rfl⟩
  simp [get_cash_flow, h1, h2, mkCashFlowData, qsub_eq, qdiv_eq]

/-- Witness frame for the cash-flow theorems: one row with income 7 and
expenses 2. -/
def wfr1 : DataFrame := ⟨["income", "expenses"], [[RVal.num 7, RVal.num 2]]⟩

/-- Witness for C4 at a concrete dataset. -/
theorem c4_net_cash_flow_exact_witness :
    ∃ d, (get_cash_flow wfr1).1 = CashFlowOut.ok d ∧
      d.net_cash_flow = wfr1.sumCol "income" - wfr1.sumCol "expenses" ∧
      d.total_income = wfr1.sumCol "income" ∧
      d.total_expenses = wfr1.sumCol "expenses" :=
  c4_net_cash_flow_exact wfr1 (by decide) (by decide)


/-- Shared branch lemma: the ratio and totals of the populated
dictionary built by `mkCashFlowData`. -/
theorem mkCashFlowData_ratio {df : DataFrame} {ti te : ℚ} {d : CashFlowData}
    {df2 : DataFrame} (h : mkCashFlowData df ti te = (CashFlowOut.ok d, df2)) :
    (d.cash_flow_ratio = .posInf ↔ d.total_expenses ≤ 0) ∧
    (0 < d.total_expenses →
      d.cash_flow_ratio = .num (d.total_income / d.total_expenses)) := by
  unfold mkCashFlowData at h
  injection h with h1 h2
  injection h1 with h1
  subst h1
  refine ⟨?_, ?_⟩
  · show (if 0 < te then EF.num (qdiv ti te) else EF.posInf) = .posInf ↔ te ≤ 0
    by_cases hte : (0 : ℚ) < te
    · rw [if_pos hte]
      exact iff_of_false (by simp) (not_le.mpr hte)
    · rw [if_neg hte]
      exact iff_of_true rfl (not_lt.mp hte)
  · show 0 < te →
      (if 0 < te then EF.num (qdiv ti te) else EF.posInf) = .num (ti / te)
    intro hte
    rw [if_pos hte, qdiv_eq]

/-- Raw frame refuting C5: one row with income 0 and expenses 0. -/
def c5raw : DataFrame := ⟨["income", "expenses"], [[RVal.num 0, RVal.num 0]]⟩

/-- The cash-flow dictionary the code returns on `c5raw`. -/
def c5data : CashFlowData := ⟨0, 0, 0, .posInf, 0, 0, []⟩

/-- C5 counterexample: on a dataset whose income and expenses both sum
to 0, `get_cash_flow` returns the positive-infinity sentinel although
total income is not positive — so the sentinel does not appear iff
`total_expenses = 0` and `total_income > 0` as the claim states. -/
theorem c5_counterexample :
    (get_cash_flow (financialDataInit c5raw)).1 = CashFlowOut.ok c5data ∧
    c5data.cash_flow_ratio = .posInf ∧
    ¬ (c5data.total_expenses = 0 ∧ 0 < c5data.total_income) := by
  refine ⟨by decide, rfl, by decide⟩

/-- C5 amended: in every populated cash-flow result the ratio is the
infinity sentinel iff `total_expenses <= 0` (the code tests
`total_expenses > 0`, not zero-versus-positive income), and otherwise
it equals `total_income / total_expenses`. -/
theorem c5_ratio_amended (df : DataFrame) (d : CashFlowData) (df2 : DataFrame)
    (h : get_cash_flow df = (CashFlowOut.ok d, df2)) :
    (d.cash_flow_ratio = .posInf ↔ d.total_expenses ≤ 0) ∧
    (0 < d.total_expenses →
      d.cash_flow_ratio = .num (d.total_income / d.total_expenses)) := by
  unfold get_cash_flow at h
  split_ifs at h
  · exact mkCashFlowData_ratio h
  · exact mkCashFlowData_ratio h
  · exact absurd (congrArg Prod.fst h) (by simp)

/-- The populated dictionary of `get_cash_flow` on the witness frame. -/
def c5wd : CashFlowData := ⟨5, 7, 2, .num (mkRat 7 2), mkRat 2 7, 0, []⟩

/-- Witness for the amended C5 at a concrete populated dataset. -/
theorem c5_ratio_amended_witness :
    (c5wd.cash_flow_ratio = .posInf ↔ c5wd.total_expenses ≤ 0) ∧
    (0 < c5wd.total_expenses →
      c5wd.cash_flow_ratio = .num (c5wd.total_income / c5wd.total_expenses)) :=
  c5_ratio_amended wfr1 c5wd wfr1 (by decide)

/-- C8: anomaly detection is deterministic.  For any detector oracle
and any dataset with at least 10 rows and a resolved amount column,
two runs of `detect_anomalies` under different ambient RNG states give
identical results (identical flagged rows, count, percentage and total
value), because the code configures the fixed contamination 0.1 and the
fixed seed `random_state=42`, so the effective seed never falls back to
the ambient state. -/
theorem c8_anomaly_determinism (oracle : IsoOracle) (a1 a2 : ℕ)
    (df : DataFrame) (h10 : 10 ≤ df.numRows) (hc : df.hasCol "amount" = true) :
    detect_anomalies oracle a1 df = detect_anomalies oracle a2 df := by
  have h1 : ¬ df.numRows < 10 := by omega
  have h2 : ¬ ((!df.hasCol "amount") = true) := by simp [hc]
  simp only [detect_anomalies, if_neg h1, if_neg h2]
  rfl

/-- Ten-row witness frame for anomaly detection. -/
def anomDf : DataFrame :=
  ⟨["amount"], [[RVal.num 1], [RVal.num 2], [RVal.num 3], [RVal.num 4],
    [RVal.num 5], [RVal.num 6], [RVal.num 7], [RVal.num 8], [RVal.num 9],
    [RVal.num 1000]]⟩

/-- A concrete oracle instance for the witness. -/
def constOracle : IsoOracle := fun _ _ xs => xs.map (fun _ => (1 : ℤ))

/-- Witness for C8 at a concrete dataset and oracle, with two distinct
ambient RNG states. -/
theorem c8_anomaly_determinism_witness :
    detect_anomalies constOracle 0 anomDf = detect_anomalies constOracle 99 anomDf :=
  c8_anomaly_determinism constOracle 0 99 anomDf (by decide) (by decide)

/-- Raw frame refuting C3: non-null amount, null expenses. -/
def c3raw : DataFrame := ⟨["amount", "expenses"], [[RVal.num 5, RVal.null]]⟩

/-- C3 counterexample: after coercion the single row is non-null in the
resolved `amount` column, yet cleaning drops it (because it is null in
the resolved `expenses` column): the row-drop is not restricted to rows
null in all resolved numeric columns. -/
theorem c3_counterexample :
    (numericCoerceStage (ensure_income_expenses (standardize_columns
        ⟨c3raw.cols.map normalizeName, c3raw.rows⟩))).rows =
      [[RVal.num 5, RVal.null]] ∧
    isNullRV (cellAt [RVal.num 5, RVal.null] 0) = false ∧
    (financialDataInit c3raw).rows = [] := by
  exact ⟨by decide, by decide, by decide⟩

/-- A column with a resolved index is a member of the column list. -/
theorem colIdx?_isSome_hasCol (df : DataFrame) (c : String) (i : ℕ)
    (h : df.colIdx? c = some i) : df.hasCol c = true := by
  by_contra hc
  have hnone : df.colIdx? c = none := by
    unfold DataFrame.colIdx?
    refine List.findIdx?_eq_none_iff.mpr (fun n hn => ?_)
    simp only [decide_eq_false_iff_not]
    intro he
    subst he
    exact hc (by simpa [DataFrame.hasCol] using hn)
  rw [hnone] at h
  cases h

/-- C3 amended: after numeric coercion a row is retained iff it is
non-null in every resolved numeric column; equivalently a row is
dropped iff it is null in at least one resolved numeric column
(`dropna` defaults to `how=any`, not `how=all`). -/
theorem c3_row_drop_amended (df : DataFrame) (r : List RVal) :
    r ∈ (clean_data df).rows ↔
      (r ∈ (numericCoerceStage df).rows ∧
        ∀ c ∈ numericalCols,
          (((numericCoerceStage df).colIdx? c).all
            (fun i => !isNullRV (cellAt r i))) = true) := by
  simp only [clean_data, dropAnyNull, List.mem_filter, List.all_eq_true,
    List.mem_filterMap, List.mem_filter]
  constructor
  · rintro ⟨hm, hp⟩
    refine ⟨hm, fun c hc => ?_⟩
    cases hidx : (numericCoerceStage df).colIdx? c with
    | none => rfl
    | some i =>
      exact hp i ⟨c, ⟨hc, colIdx?_isSome_hasCol _ _ _ hidx⟩, hidx⟩
  · rintro ⟨hm, hp⟩
    refine ⟨hm, fun i hi => ?_⟩
    rcases hi with ⟨c, ⟨hc, -⟩, hidx⟩
    have := hp c hc
    rw [hidx] at this
    exact this

/-- Witness for the amended C3: a concrete row that is non-null in
every resolved numeric column is retained by cleaning. -/
theorem c3_row_drop_amended_witness :
    [RVal.num 5] ∈ (clean_data ⟨["amount"], [[RVal.num 5]]⟩).rows :=
  (c3_row_drop_amended ⟨["amount"], [[RVal.num 5]]⟩ [RVal.num 5]).mpr
    ⟨by decide, by decide⟩

/-- The Scenario B frame of the claim: only amount and category
columns. -/
def scenB : DataFrame :=
  ⟨["category", "amount"],
   [[RVal.str "Client Payment", RVal.num 5000],
    [RVal.str "Office Rent", RVal.num 1200]]⟩

/-- C2 counterexample: on Scenario B the code does not return the
claimed totals (income 5000, expenses 1200, net 3800): the category
text `Client Payment` matches the expense keyword `payment` and no
income keyword, so the derived income column is all null and the
any-null row drop then removes both rows. -/
theorem c2_counterexample :
    ¬ ∃ d, (get_cash_flow (financialDataInit scenB)).1 = CashFlowOut.ok d ∧
      d.total_income = 5000 ∧ d.total_expenses = 1200 ∧
      d.net_cash_flow = 3800 ∧ d.cash_flow_ratio = .num (mkRat 5000 1200) := by
  rintro ⟨d, hd, hti, -, -, -⟩
  have he : (get_cash_flow (financialDataInit scenB)).1 =
      CashFlowOut.ok ⟨0, 0, 0, .posInf, 0, 0, []⟩ := by decide
  rw [he] at hd
  injection hd with hd
  rw [← hd] at hti
  exact absurd hti (by decide)

/-- C2 amended: on Scenario B the expense mask (keyword `payment`)
matches the Client Payment row and neither row matches an income
keyword, so normalization derives `expenses = 5000` for that row only
and an all-null income column; the any-null row drop then removes both
rows and `get_cash_flow` returns zero totals with the infinity
sentinel. -/
theorem c2_amended :
    ((ensure_income_expenses (standardize_columns
        ⟨scenB.cols.map normalizeName, scenB.rows⟩)).colVals "expenses" =
      [RVal.num 5000, RVal.null]) ∧
    ((ensure_income_expenses (standardize_columns
        ⟨scenB.cols.map normalizeName, scenB.rows⟩)).colVals "income" =
      [RVal.null, RVal.null]) ∧
    (financialDataInit scenB).rows = [] ∧
    (get_cash_flow (financialDataInit scenB)).1 =
      CashFlowOut.ok ⟨0, 0, 0, .posInf, 0, 0, []⟩ := by
  exact ⟨by decide, by decide, by decide, by decide⟩

/-- The Scenario D frame: a dataset on which cash flow succeeds while
profitability fails with the no-revenue error (income sums to 0). -/
def c1raw : DataFrame :=
  ⟨["date", "income", "expenses"],
   [[RVal.date 2024 1 15, RVal.num 0, RVal.num 100],
    [RVal.date 2024 2 15, RVal.num 0, RVal.num 100]]⟩

/-- C1: the claim is right about the intent but the code is broken.
On `c1raw` profitability fails (revenue 0) and cash flow succeeds, yet
`process_financial_data` returns the catch-all error response instead
of a report: the `N/A` string placeholder substituted for the failed
profitability section reaches the numeric comparison
`margin > 0.4` inside `_analyze_profitability`, which raises
`TypeError` in Python 3, and the `except` block swallows the whole
report.  The result is independent of the anomaly oracle and the
ambient RNG state. -/
theorem c1_profitability_error_aborts_report :
    (∀ oracle ambient, process_financial_data oracle ambient c1raw =
      ProcessOut.errorResponse PyErr.typeError) ∧
    (get_cash_flow (financialDataInit c1raw)).1 =
      CashFlowOut.ok ⟨-200, 0, 200, .num 0, 0, -100, []⟩ ∧
    (get_profitability (financialDataInit c1raw)).1 =
      Except.ok (ProfOut.err "No revenue data found") := by
  exact ⟨fun _ _ => rfl, by decide, by rfl⟩

/-- Sorting by date only permutes the rows, so every column reads the
same multiset of values. -/
theorem sortValuesDate_colVals_perm (df : DataFrame) (c : String) :
    ((sortValuesDate df).colVals c).Perm (df.colVals c) := by
  unfold sortValuesDate
  cases hd : df.colIdx? "date" with
  | none => exact List.Perm.refl _
  | some i =>
    show (DataFrame.colVals ⟨df.cols, _⟩ c).Perm (df.colVals c)
    unfold DataFrame.colVals
    have hc : DataFrame.colIdx? ⟨df.cols, List.insertionSort
        (fun a b => dateKeyRV (cellAt a i) ≤ dateKeyRV (cellAt b i)) df.rows⟩ c =
        df.colIdx? c := rfl
    rw [hc]
    cases df.colIdx? c with
    | none => exact List.Perm.refl _
    | some j =>
      exact (List.perm_insertionSort _ df.rows).map _

/-- Folding `min` over a list of copies of `k` returns `k`. -/
theorem foldl_min_const (l : List ℕ) (k : ℕ) (h : ∀ x ∈ l, x = k) :
    l.foldl min k = k := by
  induction l with
  | nil => rfl
  | cons a t ih =>
    have ha : a = k := h a (List.mem_cons_self a t)
    subst ha
    simp only [List.foldl_cons, min_self]
    exact ih (fun x hx => h x (List.mem_cons_of_mem a hx))

/-- Folding `max` over a list of copies of `k` returns `k`. -/
theorem foldl_max_const (l : List ℕ) (k : ℕ) (h : ∀ x ∈ l, x = k) :
    l.foldl max k = k := by
  induction l with
  | nil => rfl
  | cons a t ih =>
    have ha : a = k := h a (List.mem_cons_self a t)
    subst ha
    simp only [List.foldl_cons, max_self]
    exact ih (fun x hx => h x (List.mem_cons_of_mem a hx))

/-- When all occupied monthly buckets coincide, the resample produces
at most one bucket. -/
theorem monthly_len_le_one (df : DataFrame)
    (h : ∀ a ∈ monthKeys df, ∀ b ∈ monthKeys df, a = b) :
    (create_monthly_aggregations df).length ≤ 1 := by
  by_cases hagg :
      (List.filter (fun c => df.hasCol c) ["amount", "income", "expenses"]).isEmpty = true
  · simp [create_monthly_aggregations, hagg]
  · cases hk : monthKeys df with
    | nil => simp [create_monthly_aggregations, hagg, hk]
    | cons k ks =>
      have hks : ∀ x ∈ ks, x = k := by
        intro x hx
        have hmem : x ∈ monthKeys df := by
          rw [hk]; exact List.mem_cons_of_mem k hx
        have hkm : k ∈ monthKeys df := by
          rw [hk]; exact List.mem_cons_self k ks
        exact h x hmem k hkm
      simp [create_monthly_aggregations, hagg, hk,
        foldl_min_const ks k hks, foldl_max_const ks k hks]

/-- The trajectory string of the populated trend dictionary matches
the sign of its slope. -/
theorem mkTrendData_trajectory (m : List MonthBucket) :
    ((mkTrendData m).current_trajectory = "improving" ↔
      0 < (mkTrendData m).trend_slope) ∧
    (¬ 0 < (mkTrendData m).trend_slope →
      (mkTrendData m).current_trajectory = "declining") := by
  unfold mkTrendData
  dsimp only
  constructor
  · by_cases hb : 0 < olsSlope (m.map (fun b => b.net_cash_flow))
    · rw [if_pos hb]
      exact iff_of_true rfl hb
    · rw [if_neg hb]
      exact iff_of_false (by decide) hb
  · intro hb
    rw [if_neg hb]

/-- C7: trend preconditions.  Without a resolved date column the trend
fails with the missing-date error; with a date column whose rows all
fall in one monthly bucket (or none) it fails with the
insufficient-history error; and in every successful result the
trajectory is `improving` iff the regression slope is positive, and
`declining` otherwise. -/
theorem c7_trend_preconditions :
    (∀ df : DataFrame, df.hasCol "date" = false →
      (get_cash_flow_trend df).1 = .err "Date column required for trend analysis") ∧
    (∀ df : DataFrame, df.hasCol "date" = true →
      (∀ a ∈ monthKeys df, ∀ b ∈ monthKeys df, a = b) →
      (get_cash_flow_trend df).1 = .err "Insufficient data for trend analysis") ∧
    (∀ (df : DataFrame) (d : TrendData),
      (get_cash_flow_trend df).1 = TrendOut.ok d →
      ((d.current_trajectory = "improving" ↔ 0 < d.trend_slope) ∧
       (¬ 0 < d.trend_slope → d.current_trajectory = "declining"))) := by
  refine ⟨?_, ?_, ?_⟩
  · intro df h
    simp [get_cash_flow_trend, h]
  · intro df h hall
    have hperm : (monthKeys (sortValuesDate df)).Perm (monthKeys df) :=
      List.Perm.filterMap monthKeyOf? (sortValuesDate_colVals_perm df "date")
    have hall2 : ∀ a ∈ monthKeys (sortValuesDate df),
        ∀ b ∈ monthKeys (sortValuesDate df), a = b := fun a ha b hb =>
      hall a (hperm.mem_iff.mp ha) b (hperm.mem_iff.mp hb)
    have hlen := monthly_len_le_one (sortValuesDate df) hall2
    have hlt : (create_monthly_aggregations (sortValuesDate df)).length < 2 := by
      omega
    simp [get_cash_flow_trend, h, hlt]
  · intro df d hok
    unfold get_cash_flow_trend at hok
    by_cases h1 : (!df.hasCol "date") = true
    · rw [if_pos h1] at hok
      simp at hok
    · rw [if_neg h1] at hok
      dsimp only at hok
      by_cases h2 : (create_monthly_aggregations (sortValuesDate df)).length < 2
      · rw [if_pos h2] at hok
        simp at hok
      · rw [if_neg h2] at hok
        have hok2 : TrendOut.ok
            (mkTrendData (create_monthly_aggregations (sortValuesDate df))) =
            TrendOut.ok d := hok
        injection hok2 with hok2
        rw [← hok2]
        exact mkTrendData_trajectory _

/-- Single-month witness frame (two rows, one calendar month). -/
def dfsm : DataFrame :=
  ⟨["date", "amount"],
   [[RVal.date 2024 1 1, RVal.num 5], [RVal.date 2024 1 20, RVal.num 7]]⟩

/-- The populated trend dictionary of the normalized Scenario D frame,
used to witness the success branch. -/
def c7wd : TrendData :=
  mkTrendData [⟨24288, none, some 0, some 100, -100⟩,
               ⟨24289, none, some 0, some 100, -100⟩]

/-- Witness for C7: the three parts applied to a frame without dates,
a single-month frame, and a successful two-month analysis. -/
theorem c7_trend_preconditions_witness :
    (get_cash_flow_trend ⟨["amount"], [[RVal.num 1]]⟩).1 =
      .err "Date column required for trend analysis" ∧
    (get_cash_flow_trend dfsm).1 = .err "Insufficient data for trend analysis" ∧
    ((c7wd.current_trajectory = "improving" ↔ 0 < c7wd.trend_slope) ∧
      (¬ 0 < c7wd.trend_slope → c7wd.current_trajectory = "declining")) :=
  ⟨c7_trend_preconditions.1 ⟨["amount"], [[RVal.num 1]]⟩ (by decide),
   c7_trend_preconditions.2.1 dfsm (by decide) (by decide),
   c7_trend_preconditions.2.2 (financialDataInit c1raw) c7wd (by decide)⟩

/-- Pointwise order on the health-score conditions: `c1 ≤ c2` when
every condition holding in `c1` also holds in `c2`. -/
def condsLe (x y : HealthConds) : Prop :=
  x.netPos ≤ y.netPos ∧ x.ratioHigh ≤ y.ratioHigh ∧ x.m30 ≤ y.m30 ∧
  x.m15 ≤ y.m15 ∧ x.m05 ≤ y.m05 ∧ x.slopePos ≤ y.slopePos ∧
  x.r2High ≤ y.r2High ∧ x.vol10 ≤ y.vol10 ∧ x.vol20 ≤ y.vol20

/-- Monotonicity of the cash-flow share of the score. -/
theorem healthPart1_mono : ∀ a b a2 b2 : Bool, a ≤ a2 → b ≤ b2 →
    (if a then 20 + (if b then 10 else 0) else 0) ≤
    (if a2 then 20 + (if b2 then 10 else 0) else 0) := by decide

/-- Monotonicity of the margin ladder. -/
theorem healthPart2_mono : ∀ x y z x2 y2 z2 : Bool, x ≤ x2 → y ≤ y2 → z ≤ z2 →
    (if x then 30 else if y then 20 else if z then 10 else 0) ≤
    (if x2 then 30 else if y2 then 20 else if z2 then 10 else 0) := by decide

/-- Monotonicity of the trend share of the score. -/
theorem healthPart3_mono : ∀ a b a2 b2 : Bool, a ≤ a2 → b ≤ b2 →
    (if a then 15 + (if b then 10 else 0) else 0) ≤
    (if a2 then 15 + (if b2 then 10 else 0) else 0) := by decide

/-- Monotonicity of the volatility ladder. -/
theorem healthPart4_mono : ∀ v w v2 w2 : Bool, v ≤ v2 → w ≤ w2 →
    (if v then 15 else if w then 10 else 0) ≤
    (if v2 then 15 else if w2 then 10 else 0) := by decide

/-- C6: the health score of every successfully scored dataset lies in
[0, 100] (the code clamps the accumulated sum at 100, and it equals the
condition sum `healthScoreNum` of the computed metric conditions), and
the condition sum is monotonically non-decreasing: making any
contributing condition hold while keeping the others fixed never
lowers the score. -/
theorem c6_health_score_bounds_mono :
    (∀ (df : DataFrame) (r : HealthOut) (df2 : DataFrame),
      get_financial_health_score df = (Except.ok r, df2) →
      0 ≤ r.score ∧ r.score ≤ 100 ∧
      ∃ p df3, get_profitability (get_cash_flow df).2 = (Except.ok p, df3) ∧
        r.score = min (healthScoreNum (mkHealthConds (get_cash_flow df).1 p
          (get_cash_flow_trend df3).1)) 100) ∧
    (∀ c1 c2 : HealthConds, condsLe c1 c2 →
      healthScoreNum c1 ≤ healthScoreNum c2) := by
  constructor
  · intro df r df2 h
    unfold get_financial_health_score at h
    split at h
    · exact absurd (congrArg Prod.fst h) (by simp)
    · next p df3 heq =>
      unfold mkHealthOut at h
      injection h with h1 h2
      injection h1 with h1
      rw [← h1]
      exact ⟨Nat.zero_le _, Nat.min_le_right _ _, p, df3, heq, rfl⟩
  · rintro c1 c2 ⟨h1, h2, h3, h4, h5, h6, h7, h8, h9⟩
    unfold healthScoreNum
    exact Nat.add_le_add (Nat.add_le_add (Nat.add_le_add
      (healthPart1_mono _ _ _ _ h1 h2) (healthPart2_mono _ _ _ _ _ _ h3 h4 h5))
      (healthPart3_mono _ _ _ _ h6 h7)) (healthPart4_mono _ _ _ _ h8 h9)

/-- The health record produced on the normalized Scenario D frame. -/
def c6hw : HealthOut :=
  ⟨15, "F", "Poor financial health requiring immediate action"⟩

/-- Witness for C6: the bounds applied to a concretely scored dataset,
and the monotonicity applied to a concrete pair of condition vectors
differing in one condition. -/
theorem c6_health_score_bounds_mono_witness :
    (0 ≤ c6hw.score ∧ c6hw.score ≤ 100 ∧
      ∃ p df3, get_profitability (get_cash_flow (financialDataInit c1raw)).2 =
          (Except.ok p, df3) ∧
        c6hw.score = min (healthScoreNum
          (mkHealthConds (get_cash_flow (financialDataInit c1raw)).1 p
            (get_cash_flow_trend df3).1)) 100) ∧
    healthScoreNum ⟨false, false, false, false, false, false, false, false, false⟩ ≤
      healthScoreNum ⟨true, false, false, false, false, false, false, false, false⟩ :=
  ⟨c6_health_score_bounds_mono.1 (financialDataInit c1raw) c6hw
      (get_financial_health_score (financialDataInit c1raw)).2 (by rfl),
   c6_health_score_bounds_mono.2 _ _ (by unfold condsLe; decide)⟩

/-! ## C10: the derived income/expense masking counts both-matching
rows twice -/

/-- A raw amount cell: a number or null. -/
def amtCell : Option ℚ → RVal
  | some a => .num a
  | none => .null

/-- A raw frame with exactly the `amount` and `category` columns, one
row per pair. -/
def mkAmtCat (rs : List (Option ℚ × String)) : DataFrame :=
  ⟨["amount", "category"], rs.map (fun p => [amtCell p.1, RVal.str p.2])⟩

/-- Does the category text match the income keyword set. -/
def incM (s : String) : Bool := categoryMatch incomeKeywords (RVal.str s)

/-- Does the category text match the expense keyword set. -/
def expM (s : String) : Bool := categoryMatch expenseKeywords (RVal.str s)

/-- The row shape after `_ensure_income_expenses` on such a frame:
amount, category, and the two derived masked columns. -/
def row4 (p : Option ℚ × String) : List RVal :=
  [amtCell p.1, RVal.str p.2,
   if incM p.2 then amtCell p.1 else RVal.null,
   if expM p.2 then amtCell p.1 else RVal.null]

/-- The rows that survive cleaning: non-null amount and a category
matching both keyword sets (everything else has a null derived cell
and is removed by the any-null drop). -/
def bothKeep (p : Option ℚ × String) : Bool :=
  p.1.isSome && incM p.2 && expM p.2

/-- The derived-column writes of `_ensure_income_expenses` on an
amount+category frame. -/
theorem ensure_mkAmtCat (rs : List (Option ℚ × String)) :
    ensure_income_expenses (mkAmtCat rs) =
    ⟨["amount", "category", "income", "expenses"], rs.map row4⟩ := by
  unfold ensure_income_expenses mkAmtCat
  simp only [DataFrame.hasCol, DataFrame.setCol, DataFrame.catMask, DataFrame.colVals,
    DataFrame.colIdx?, maskedNewCol, cellAt, List.map_map, List.zip_map']
  simp [incM, expM, row4, List.zip_map', List.map_map, Function.comp]

/-- Overwriting an existing column with a mapped copy of itself maps
each row pointwise. -/
theorem setCol_existing (cs : List String) (R : List (List RVal)) (c : String)
    (i : ℕ) (hc : List.findIdx? (fun n => n = c) cs = some i) (f : RVal → RVal) :
    DataFrame.setCol ⟨cs, R⟩ c ((DataFrame.colVals ⟨cs, R⟩ c).map f) =
    ⟨cs, R.map (fun r => r.set i (f (cellAt r i)))⟩ := by
  unfold DataFrame.setCol DataFrame.colVals DataFrame.colIdx?
  simp only [hc]
  congr 1
  induction R with
  | nil => rfl
  | cons r R ih =>
    simpa using ih

/-- One step of the numeric-coercion fold of `_clean_data`. -/
def coerceStep (d : DataFrame) (c : String) : DataFrame :=
  if d.hasCol c then d.setCol c ((d.colVals c).map coerceNum) else d

/-- The per-row effect of the coercion fold on the four-column schema
(amount at 0, expenses at 3, income at 2). -/
def coerceRow (r : List RVal) : List RVal :=
  let r0 := r.set 0 (coerceNum (cellAt r 0))
  let r3 := r0.set 3 (coerceNum (cellAt r0 3))
  r3.set 2 (coerceNum (cellAt r3 2))

/-- The coercion stage on the four-column schema maps `coerceRow` over
the rows. -/
theorem coerceStage_C4 (R : List (List RVal)) :
    numericCoerceStage ⟨["amount", "category", "income", "expenses"], R⟩ =
    ⟨["amount", "category", "income", "expenses"], R.map coerceRow⟩ := by
  show coerceStep (coerceStep (coerceStep (coerceStep
      ⟨["amount", "category", "income", "expenses"], R⟩ "amount") "revenue")
      "expenses") "income" = _
  rw [show coerceStep ⟨["amount", "category", "income", "expenses"], R⟩ "amount" =
      DataFrame.setCol ⟨["amount", "category", "income", "expenses"], R⟩ "amount"
        ((DataFrame.colVals ⟨["amount", "category", "income", "expenses"], R⟩
          "amount").map coerceNum) from rfl,
    setCol_existing ["amount", "category", "income", "expenses"] R "amount" 0 (by rfl)]
  rw [show ∀ R2 : List (List RVal), coerceStep
      ⟨["amount", "category", "income", "expenses"], R2⟩ "revenue" =
      ⟨["amount", "category", "income", "expenses"], R2⟩ from fun _ => rfl]
  rw [show ∀ R2 : List (List RVal), coerceStep
      ⟨["amount", "category", "income", "expenses"], R2⟩ "expenses" =
      DataFrame.setCol ⟨["amount", "category", "income", "expenses"], R2⟩ "expenses"
        ((DataFrame.colVals ⟨["amount", "category", "income", "expenses"], R2⟩
          "expenses").map coerceNum) from fun _ => rfl,
    setCol_existing ["amount", "category", "income", "expenses"] _ "expenses" 3 (by rfl)]
  rw [show ∀ R2 : List (List RVal), coerceStep
      ⟨["amount", "category", "income", "expenses"], R2⟩ "income" =
      DataFrame.setCol ⟨["amount", "category", "income", "expenses"], R2⟩ "income"
        ((DataFrame.colVals ⟨["amount", "category", "income", "expenses"], R2⟩
          "income").map coerceNum) from fun _ => rfl,
    setCol_existing ["amount", "category", "income", "expenses"] _ "income" 2 (by rfl)]
  simp [List.map_map, Function.comp, coerceRow]

/-- `_clean_data` on the four-column schema: coerce each row, then keep
the rows that are non-null in the resolved numeric columns. -/
theorem clean_C4 (R : List (List RVal)) :
    clean_data ⟨["amount", "category", "income", "expenses"], R⟩ =
    ⟨["amount", "category", "income", "expenses"],
      (R.map coerceRow).filter
        (fun r => [0, 3, 2].all (fun i => !isNullRV (cellAt r i)))⟩ := by
  unfold clean_data dropAnyNull
  rw [show (numericCoerceStage ⟨["amount", "category", "income", "expenses"], R⟩) =
    ⟨["amount", "category", "income", "expenses"], R.map coerceRow⟩ from
    coerceStage_C4 R]
  rfl

/-- Coercion is the identity on the derived rows (their cells are
already numbers or nulls). -/
theorem coerceRow_row4 (p : Option ℚ × String) : coerceRow (row4 p) = row4 p := by
  rcases p with ⟨oa, c⟩
  cases oa <;> by_cases hi : incM c <;> by_cases he : expM c <;>
    simp [row4, coerceRow, cellAt, coerceNum, amtCell, hi, he]

/-- A derived row survives the any-null drop iff its amount is present
and its category matches both keyword sets. -/
theorem keep_row4 (p : Option ℚ × String) :
    ([0, 3, 2].all (fun i => !isNullRV (cellAt (row4 p) i))) = bothKeep p := by
  rcases p with ⟨oa, c⟩
  cases oa <;> by_cases hi : incM c <;> by_cases he : expM c <;>
    simp [row4, bothKeep, cellAt, isNullRV, amtCell, hi, he]

/-- Full normalization of an amount+category frame: only the rows whose
category matches both keyword sets (with a non-null amount) survive,
carrying their amount in both derived columns. -/
theorem init_mkAmtCat (rs : List (Option ℚ × String)) :
    financialDataInit (mkAmtCat rs) =
    ⟨["amount", "category", "income", "expenses"],
      (rs.filter bothKeep).map row4⟩ := by
  show clean_data (ensure_income_expenses (mkAmtCat rs)) = _
  rw [ensure_mkAmtCat, clean_C4]
  congr 1
  rw [List.map_map]
  have hcr : List.map (coerceRow ∘ row4) rs = List.map row4 rs :=
    List.map_congr_left (fun p _ => coerceRow_row4 p)
  rw [hcr, List.filter_map]
  congr 1
  exact List.filter_congr (fun p _ => keep_row4 p)

/-- Sum of a derived column over the surviving rows. -/
theorem sum_filterMap_row4 (rs : List (Option ℚ × String)) (i : ℕ)
    (hsel : ∀ p : Option ℚ × String, bothKeep p = true →
      toQ (cellAt (row4 p) i) = p.1) :
    qsum ((((rs.filter bothKeep).map row4).map
      (fun r => cellAt r i)).filterMap toQ) =
    ((rs.filter bothKeep).filterMap Prod.fst).sum := by
  rw [qsum_eq, List.map_map, List.filterMap_map]
  congr 1
  refine List.filterMap_congr (fun p hp => ?_)
  exact hsel p (List.of_mem_filter hp)

/-- Both totals of the derived cash flow equal the same sum over the
rows matching both keyword sets. -/
theorem cash_flow_mkAmtCat (rs : List (Option ℚ × String)) :
    ∃ d df2, get_cash_flow (financialDataInit (mkAmtCat rs)) = (CashFlowOut.ok d, df2) ∧
      d.total_income = ((rs.filter bothKeep).filterMap Prod.fst).sum ∧
      d.total_expenses = ((rs.filter bothKeep).filterMap Prod.fst).sum := by
  rw [init_mkAmtCat]
  refine ⟨_, _, rfl, ?_, ?_⟩
  · show qsum (((((rs.filter bothKeep).map row4)).map
      (fun r => cellAt r 2)).filterMap toQ) = _
    refine sum_filterMap_row4 rs 2 (fun p hb => ?_)
    rcases p with ⟨oa, c⟩
    simp only [bothKeep, Bool.and_eq_true, Option.isSome_iff_exists] at hb
    obtain ⟨⟨⟨a, ha⟩, hi⟩, he⟩ := hb
    subst ha
    simp [row4, cellAt, amtCell, toQ, hi, he]
  · show qsum (((((rs.filter bothKeep).map row4)).map
      (fun r => cellAt r 3)).filterMap toQ) = _
    refine sum_filterMap_row4 rs 3 (fun p hb => ?_)
    rcases p with ⟨oa, c⟩
    simp only [bothKeep, Bool.and_eq_true, Option.isSome_iff_exists] at hb
    obtain ⟨⟨⟨a, ha⟩, hi⟩, he⟩ := hb
    subst ha
    simp [row4, cellAt, amtCell, toQ, hi, he]

/-- C10: the income and expense masks are not mutually exclusive, and a
row matching both keyword sets is counted in both totals.  First part:
on an amount+category dataset both derived totals equal the same sum
over the rows whose category matches both keyword sets (a surviving row
is necessarily a both-matching row).  Second part: appending a
both-matching row with amount `a` increases `total_income` and
`total_expenses` both by `a`. -/
theorem c10_double_count :
    (∀ rs : List (Option ℚ × String), ∃ d df2,
      get_cash_flow (financialDataInit (mkAmtCat rs)) = (CashFlowOut.ok d, df2) ∧
      d.total_income = ((rs.filter bothKeep).filterMap Prod.fst).sum ∧
      d.total_expenses = ((rs.filter bothKeep).filterMap Prod.fst).sum) ∧
    (∀ (rs : List (Option ℚ × String)) (a : ℚ) (c : String),
      incM c = true → expM c = true →
      ∃ d d2 df2 df22,
        get_cash_flow (financialDataInit (mkAmtCat rs)) = (CashFlowOut.ok d, df2) ∧
        get_cash_flow (financialDataInit (mkAmtCat (rs ++ [(some a, c)]))) =
          (CashFlowOut.ok d2, df22) ∧
        d2.total_income = d.total_income + a ∧
        d2.total_expenses = d.total_expenses + a) := by
  constructor
  · exact cash_flow_mkAmtCat
  · intro rs a c hi he
    obtain ⟨d, df2, h1, hti, hte⟩ := cash_flow_mkAmtCat rs
    obtain ⟨d2, df22, h2, hti2, hte2⟩ := cash_flow_mkAmtCat (rs ++ [(some a, c)])
    refine ⟨d, d2, df2, df22, h1, h2, ?_, ?_⟩
    · rw [hti2, hti, List.filter_append, List.filterMap_append, List.sum_append]
      simp [bothKeep, hi, he]
    · rw [hte2, hte, List.filter_append, List.filterMap_append, List.sum_append]
      simp [bothKeep, hi, he]

/-- Witness for C10: appending the both-matching row
`(7, "sales expense")` raises both totals by 7. -/
theorem c10_double_count_witness :
    ∃ d d2 df2 df22,
      get_cash_flow (financialDataInit (mkAmtCat [])) = (CashFlowOut.ok d, df2) ∧
      get_cash_flow (financialDataInit (mkAmtCat [(some 7, "sales expense")])) =
        (CashFlowOut.ok d2, df22) ∧
      d2.total_income = d.total_income + 7 ∧
      d2.total_expenses = d.total_expenses + 7 :=
  c10_double_count.2 [] 7 "sales expense" (by decide) (by decide)

/-! ## Frame effects of the metric operations -/

/-- Writing a cell at one index leaves every other index unchanged. -/
theorem cellAt_set_ne {i j : ℕ} (h : i ≠ j) (r : List RVal) (v : RVal) :
    cellAt (r.set i v) j = cellAt r j := by
  simp [cellAt, List.getD_eq_getElem?_getD, List.getElem?_set_ne h]

/-- The label found by a successful column lookup is the one searched for. -/
theorem colIdx?_pred : ∀ (cs : List String) (c : String) (j : ℕ),
    List.findIdx? (fun n => n = c) cs = some j → cs.getD j "" = c := by
  intro cs
  induction cs with
  | nil => intro c j h; simp [List.findIdx?] at h
  | cons a t ih =>
    intro c j h
    rw [List.findIdx?_cons] at h
    by_cases ha : a = c
    · simp [ha] at h
      subst h
      simpa using ha
    · simp [ha] at h
      obtain ⟨j2, hj2, hj⟩ := h
      subst hj
      simpa using ih c j2 hj2

/-- A column reported present by `hasCol` has a resolved index. -/
theorem hasCol_colIdx?_isSome (df : DataFrame) (c : String)
    (h : df.hasCol c = true) : ∃ i, df.colIdx? c = some i := by
  cases hi : df.colIdx? c with
  | some i => exact ⟨i, rfl⟩
  | none =>
    exfalso
    unfold DataFrame.colIdx? at hi
    have := List.findIdx?_eq_none_iff.mp hi
    unfold DataFrame.hasCol at h
    obtain ⟨a, ha, hac⟩ := List.contains_iff_exists_mem_beq.mp h
    have := this a ha
    simp at this hac
    exact this (hac.symm ▸ rfl)

/-- Writing one column (in place or by enlargement) leaves the values of
every other column unchanged, on a rectangular frame. -/
theorem setCol_colVals_ne (df : DataFrame) (cNew : String) (V : List RVal)
    (hV : V.length = df.rows.length) (hwf : df.WF) (c : String) (hne : c ≠ cNew) :
    (df.setCol cNew V).colVals c = df.colVals c := by
  unfold DataFrame.setCol
  cases hn : df.colIdx? cNew with
  | some i =>
    show DataFrame.colVals ⟨df.cols, _⟩ c = _
    unfold DataFrame.colVals
    rw [show DataFrame.colIdx? ⟨df.cols,
      (df.rows.zip V).map (fun p => p.1.set i p.2)⟩ c = df.colIdx? c from rfl]
    cases hc : df.colIdx? c with
    | none => rfl
    | some j =>
      have hij : i ≠ j := by
        intro he
        subst he
        unfold DataFrame.colIdx? at hn hc
        have h1 := colIdx?_pred df.cols cNew i hn
        have h2 := colIdx?_pred df.cols c i hc
        exact hne (h2 ▸ h1 ▸ rfl)
      show List.map (fun r => cellAt r j)
          ((df.rows.zip V).map (fun p => p.1.set i p.2)) =
        List.map (fun r => cellAt r j) df.rows
      rw [List.map_map]
      have hpt : (df.rows.zip V).map ((fun r => cellAt r j) ∘ (fun p => p.1.set i p.2)) =
          (df.rows.zip V).map (fun p => cellAt p.1 j) :=
        List.map_congr_left (fun p _ => cellAt_set_ne hij p.1 p.2)
      rw [hpt]
      rw [show (fun p : List RVal × RVal => cellAt p.1 j) =
        ((fun r => cellAt r j) ∘ Prod.fst) from rfl]
      rw [← List.map_map, List.map_fst_zip _ _ (le_of_eq hV.symm)]
  | none =>
    show DataFrame.colVals ⟨df.cols ++ [cNew], _⟩ c = _
    unfold DataFrame.colVals
    have hext : DataFrame.colIdx? ⟨df.cols ++ [cNew],
        (df.rows.zip V).map (fun p => p.1 ++ [p.2])⟩ c = df.colIdx? c := by
      unfold DataFrame.colIdx?
      rw [List.findIdx?_append]
      have hnone2 : List.findIdx? (fun n => n = c) [cNew] = none := by
        simp [List.findIdx?_cons]
        intro he
        exact absurd he.symm hne
      rw [hnone2]
      simp
    rw [hext]
    cases hc : df.colIdx? c with
    | none => rfl
    | some j =>
      have hjlt : j < df.cols.length := by
        unfold DataFrame.colIdx? at hc
        exact (List.findIdx?_eq_some_iff_findIdx_eq.mp hc).1
      show List.map (fun r => cellAt r j)
          ((df.rows.zip V).map (fun p => p.1 ++ [p.2])) =
        List.map (fun r => cellAt r j) df.rows
      have hpt : (df.rows.zip V).map ((fun r => cellAt r j) ∘ (fun p => p.1 ++ [p.2])) =
          (df.rows.zip V).map (fun p => cellAt p.1 j) := by
        refine List.map_congr_left (fun p hp => ?_)
        have hmem : p.1 ∈ df.rows := (List.of_mem_zip hp).1
        have hlen : p.1.length = df.cols.length := hwf p.1 hmem
        show cellAt (p.1 ++ [p.2]) j = cellAt p.1 j
        unfold cellAt
        rw [List.getD_append _ _ _ _ (hlen ▸ hjlt)]
      rw [List.map_map, hpt]
      rw [show (fun p : List RVal × RVal => cellAt p.1 j) =
        ((fun r => cellAt r j) ∘ Prod.fst) from rfl]
      rw [← List.map_map, List.map_fst_zip _ _ (le_of_eq hV.symm)]

/-- Sorting by date keeps the column labels. -/
theorem sortValuesDate_cols (df : DataFrame) : (sortValuesDate df).cols = df.cols := by
  unfold sortValuesDate
  cases df.colIdx? "date" <;> rfl

/-- A present column has one value per row. -/
theorem colVals_length (df : DataFrame) (c : String) (i : ℕ)
    (h : df.colIdx? c = some i) : (df.colVals c).length = df.rows.length := by
  unfold DataFrame.colVals
  rw [h]
  exact List.length_map _ _

/-- Writing a column keeps the labels, or appends exactly the new label. -/
theorem setCol_cols (df : DataFrame) (c : String) (V : List RVal) :
    (df.setCol c V).cols = df.cols ∨ (df.setCol c V).cols = df.cols ++ [c] := by
  unfold DataFrame.setCol
  cases df.colIdx? c with
  | some i => exact Or.inl rfl
  | none => exact Or.inr rfl

/-- The frame returned by `_get_seasonal_patterns`: unchanged unless a
date column is present with at least 12 rows, in which case the derived
`month` column is written into it. -/
theorem seasonal_snd (df : DataFrame) :
    (get_seasonal_patterns df).2 =
      if !df.hasCol "date" || df.numRows < 12 then df
      else df.setCol "month" ((df.colVals "date").map (fun v =>
        match v with
        | .date _ m _ => RVal.num m
        | _ => RVal.null)) := by
  unfold get_seasonal_patterns
  split
  · rfl
  · rfl

/-- `get_profitability` never mutates the frame. -/
theorem profitability_snd (df : DataFrame) : (get_profitability df).2 = df := by
  unfold get_profitability
  split <;> (dsimp only; split <;> rfl)

/-- `detect_anomalies` never mutates the frame. -/
theorem anomalies_snd (o : IsoOracle) (a : ℕ) (df : DataFrame) :
    (detect_anomalies o a df).2 = df := by
  unfold detect_anomalies
  split <;> first
  | rfl
  | (split <;> rfl)

/-- The frame returned by `get_cash_flow` is the input frame or the one
returned by the seasonal-pattern step. -/
theorem cash_flow_snd (df : DataFrame) :
    (get_cash_flow df).2 = df ∨ (get_cash_flow df).2 = (get_seasonal_patterns df).2 := by
  unfold get_cash_flow mkCashFlowData
  split
  · exact Or.inr rfl
  · split
    · exact Or.inr rfl
    · exact Or.inl rfl

/-- The frame returned by `get_cash_flow_trend` is the input frame or its
sort by date. -/
theorem trend_snd (df : DataFrame) :
    (get_cash_flow_trend df).2 = df ∨
    (get_cash_flow_trend df).2 = sortValuesDate df := by
  unfold get_cash_flow_trend
  split
  · exact Or.inl rfl
  · dsimp only
    split
    · exact Or.inr rfl
    · exact Or.inr rfl

/-- The seasonal-pattern step changes no column other than `month`. -/
theorem seasonal_colVals_ne (df : DataFrame) (hwf : df.WF) (c : String)
    (hne : c ≠ "month") :
    (get_seasonal_patterns df).2.colVals c = df.colVals c := by
  rw [seasonal_snd]
  cases h : (!df.hasCol "date" || decide (df.numRows < 12)) with
  | true => rfl
  | false =>
    rw [if_neg Bool.false_ne_true]
    have hdate : df.hasCol "date" = true := by
      have := (Bool.or_eq_false_iff.mp h).1
      simpa using this
    obtain ⟨i, hi⟩ := hasCol_colIdx?_isSome df "date" hdate
    refine setCol_colVals_ne df "month" _ ?_ hwf c hne
    rw [List.length_map]
    exact colVals_length df "date" i hi

/-- The seasonal-pattern step keeps the labels or appends `month`. -/
theorem seasonal_cols (df : DataFrame) :
    (get_seasonal_patterns df).2.cols = df.cols ∨
    (get_seasonal_patterns df).2.cols = df.cols ++ ["month"] := by
  rw [seasonal_snd]
  cases h : (!df.hasCol "date" || decide (df.numRows < 12)) with
  | true => exact Or.inl rfl
  | false =>
    rw [if_neg Bool.false_ne_true]
    exact setCol_cols df "month" _

/-- `get_cash_flow` changes no column other than the derived `month`. -/
theorem cash_flow_colVals_ne (df : DataFrame) (hwf : df.WF) (c : String)
    (hne : c ≠ "month") :
    (get_cash_flow df).2.colVals c = df.colVals c := by
  cases cash_flow_snd df with
  | inl h => rw [h]
  | inr h => rw [h]; exact seasonal_colVals_ne df hwf c hne

/-- `get_cash_flow` keeps the labels or appends `month`. -/
theorem cash_flow_cols (df : DataFrame) :
    (get_cash_flow df).2.cols = df.cols ∨
    (get_cash_flow df).2.cols = df.cols ++ ["month"] := by
  cases cash_flow_snd df with
  | inl h => rw [h]; exact Or.inl rfl
  | inr h => rw [h]; exact seasonal_cols df

/-- `get_cash_flow_trend` keeps the column labels. -/
theorem trend_cols (df : DataFrame) :
    (get_cash_flow_trend df).2.cols = df.cols := by
  cases trend_snd df with
  | inl h => rw [h]
  | inr h => rw [h]; exact sortValuesDate_cols df

/-- `get_cash_flow_trend` only reorders the values of each column. -/
theorem trend_colVals_perm (df : DataFrame) (c : String) :
    ((get_cash_flow_trend df).2.colVals c).Perm (df.colVals c) := by
  cases trend_snd df with
  | inl h => rw [h]
  | inr h => rw [h]; exact sortValuesDate_colVals_perm df c

/-- The frame returned by `get_financial_health_score` is the one left by
its internal cash-flow call, possibly further sorted by its trend call. -/
theorem health_snd (df : DataFrame) :
    (get_financial_health_score df).2 = (get_cash_flow df).2 ∨
    (get_financial_health_score df).2 =
      (get_cash_flow_trend (get_cash_flow df).2).2 := by
  unfold get_financial_health_score
  cases hfst : (get_profitability (get_cash_flow df).2).1 with
  | error e =>
    have he : get_profitability (get_cash_flow df).2 =
        (Except.error e, (get_cash_flow df).2) := by
      apply Prod.ext
      · exact hfst
      · exact profitability_snd _
    rw [he]
    exact Or.inl rfl
  | ok p =>
    have he : get_profitability (get_cash_flow df).2 =
        (Except.ok p, (get_cash_flow df).2) := by
      apply Prod.ext
      · exact hfst
      · exact profitability_snd _
    rw [he]
    exact Or.inr rfl

/-- `get_financial_health_score` keeps the labels or appends `month`. -/
theorem health_cols (df : DataFrame) :
    (get_financial_health_score df).2.cols = df.cols ∨
    (get_financial_health_score df).2.cols = df.cols ++ ["month"] := by
  cases health_snd df with
  | inl h => rw [h]; exact cash_flow_cols df
  | inr h =>
    rw [h, trend_cols]
    exact cash_flow_cols df

/-- `get_financial_health_score` at most reorders the values of every
column other than the derived `month`. -/
theorem health_colVals_ne (df : DataFrame) (hwf : df.WF) (c : String)
    (hne : c ≠ "month") :
    ((get_financial_health_score df).2.colVals c).Perm (df.colVals c) := by
  cases health_snd df with
  | inl h =>
    rw [h, cash_flow_colVals_ne df hwf c hne]
  | inr h =>
    rw [h]
    have h1 := trend_colVals_perm (get_cash_flow df).2 c
    rw [cash_flow_colVals_ne df hwf c hne] at h1
    exact h1

/-- A 12-row dataset with a date column: large enough for the
seasonal-pattern step to write its derived `month` column. -/
def c9df : DataFrame :=
  ⟨["date", "income", "expenses"],
   (List.range 12).map (fun k => [RVal.date 2024 (k + 1) 15, RVal.num 100, RVal.num 40])⟩

/-- C9, counterexample: on a 12-row dataset with a resolved date column,
`get_cash_flow` hands back a frame with a new `month` column, so the set
of columns is NOT unchanged by every metric computation: the spec's
dataset-immutability sentence as stated is false. -/
theorem c9_counterexample :
    (get_cash_flow c9df).2.cols = ["date", "income", "expenses", "month"] ∧
    ¬ (get_cash_flow c9df).2.cols = c9df.cols :=
  ⟨by decide, by decide⟩

/-- C9, amended: the exact frame effects of the metric operations.
`get_profitability` and `detect_anomalies` are pure;
`get_cash_flow` (through the seasonal-pattern step) changes no column
other than the derived `month` it may append; `get_cash_flow_trend` only
sorts (labels kept, each column a permutation of its old values); and
`get_financial_health_score` combines the two effects: at most a
permutation of every column other than `month`, labels kept or extended
by `month`. -/
theorem c9_frame_effects_amended (oracle : IsoOracle) (ambient : ℕ)
    (df : DataFrame) (hwf : df.WF) :
    (get_profitability df).2 = df ∧
    (detect_anomalies oracle ambient df).2 = df ∧
    (∀ c, c ≠ "month" → (get_cash_flow df).2.colVals c = df.colVals c) ∧
    ((get_cash_flow df).2.cols = df.cols ∨
      (get_cash_flow df).2.cols = df.cols ++ ["month"]) ∧
    ((get_cash_flow_trend df).2.cols = df.cols ∧
      ∀ c, ((get_cash_flow_trend df).2.colVals c).Perm (df.colVals c)) ∧
    (∀ c, c ≠ "month" →
      ((get_financial_health_score df).2.colVals c).Perm (df.colVals c)) ∧
    ((get_financial_health_score df).2.cols = df.cols ∨
      (get_financial_health_score df).2.cols = df.cols ++ ["month"]) :=
  ⟨profitability_snd df, anomalies_snd oracle ambient df,
   fun c hc => cash_flow_colVals_ne df hwf c hc,
   cash_flow_cols df,
   ⟨trend_cols df, fun c => trend_colVals_perm df c⟩,
   fun c hc => health_colVals_ne df hwf c hc,
   health_cols df⟩

/-- Witness frame for the amended frame-effect theorem. -/
def c9wdf : DataFrame := ⟨["amount"], [[RVal.num 3]]⟩

/-- Degenerate outlier oracle flagging nothing. -/
def c9oracle : IsoOracle := fun _ _ _ => []

/-- The amended frame-effect theorem at a concrete rectangular frame. -/
theorem c9_frame_effects_amended_witness :
    c9wdf.WF ∧ ((get_profitability c9wdf).2 = c9wdf ∧
      (detect_anomalies c9oracle 0 c9wdf).2 = c9wdf) := by
  have hwf : c9wdf.WF := by
    intro r hr
    simp only [c9wdf, List.mem_singleton] at hr
    subst hr
    rfl
  exact ⟨hwf, (c9_frame_effects_amended c9oracle 0 c9wdf hwf).1,
    (c9_frame_effects_amended c9oracle 0 c9wdf hwf).2.1⟩
